import Mathlib

/-!
# Verification of the Ed448-Goldilocks extended-point module

Shallow embedding of `src/curve/edwards/extended.rs` over the field
`GF(p)` with `p = 2^448 - 2^224 - 1`, modelled as `ZMod p`.

External collaborators (`FieldElement`, `Scalar`, the twisted-curve
ladder `variable_base`, the dual isogeny `to_untwisted`, the hash
expander) live outside the translated file; they are modelled from the
specification where a claim needs them, and each such definition is
marked `Modelled from the spec:` in its doc comment.
-/

set_option maxRecDepth 100000
set_option maxHeartbeats 4000000

namespace Ed448

/-- The Goldilocks prime `p = 2^448 - 2^224 - 1` (spec §1). -/
def p : ℕ := 2 ^ 448 - 2 ^ 224 - 1

/-- Field elements: `GF(p)` modelled as `ZMod p`. -/
abbrev F : Type := ZMod p

instance : NeZero p := ⟨by decide⟩

/-- `FieldElement::EDWARDS_D = -39081` (spec §1, §6). -/
def edwardsD : F := -39081

/-- Extended homogeneous projective point `(X : Y : Z : T)` on the
untwisted curve (struct `ExtendedPoint` in the source). -/
structure ExtendedPoint where
  X : F
  Y : F
  Z : F
  T : F
deriving DecidableEq, Repr

/-- `ExtendedPoint::IDENTITY = (0, 1, 1, 0)`. -/
def identity : ExtendedPoint := ⟨0, 1, 1, 0⟩

/-- `ExtendedPoint::add`: the unified Hisil–Wong–Carter–Dawson formula
exactly as written in the source (`aXX`, `dTT`, `ZZ`, `YY` then the
four coordinate products). -/
def add (P Q : ExtendedPoint) : ExtendedPoint :=
  let aXX := P.X * Q.X
  let dTT := edwardsD * P.T * Q.T
  let ZZ := P.Z * Q.Z
  let YY := P.Y * Q.Y
  { X := ((P.X * Q.Y) + (P.Y * Q.X)) * (ZZ - dTT)
    Y := (YY - aXX) * (ZZ + dTT)
    Z := (ZZ - dTT) * (ZZ + dTT)
    T := (YY - aXX) * ((P.X * Q.Y) + (P.Y * Q.X)) }

/-- `ExtendedPoint::double`, defined in the source as `self.add(&self)`. -/
def double (P : ExtendedPoint) : ExtendedPoint := add P P

/-- `ExtendedPoint::negate`. -/
def negate (P : ExtendedPoint) : ExtendedPoint := ⟨-P.X, P.Y, P.Z, -P.T⟩

/-- `ExtendedPoint::torque`. -/
def torque (P : ExtendedPoint) : ExtendedPoint := ⟨-P.X, -P.Y, P.Z, P.T⟩

/-- `ConstantTimeEq::ct_eq`: projective cross-multiplication equality. -/
def ctEq (P Q : ExtendedPoint) : Bool :=
  decide (P.X * Q.Z = P.Z * Q.X) && decide (P.Y * Q.Z = P.Z * Q.Y)

/-- `ExtendedPoint::is_on_curve`:
`(X·Y == Z·T) && (Y² + X² == Z² + T²·d)`. -/
def is_on_curve (P : ExtendedPoint) : Bool :=
  decide (P.X * P.Y = P.Z * P.T) &&
    decide (P.Y * P.Y + P.X * P.X = P.Z * P.Z + P.T * P.T * edwardsD)

/-- Affine point (struct `AffinePoint` from the affine module). -/
structure AffinePoint where
  x : F
  y : F
deriving DecidableEq, Repr

/-- Tail-recursive binary exponentiation in `GF(p)` (square and
multiply, least significant bit first); the always-true size test on
the accumulators keeps every step in normal form so that kernel
evaluation runs in constant stack space. -/
def powAux : ℕ → F → F → ℕ → F
  | 0, acc, _, _ => acc
  | fuel + 1, acc, base, n =>
    if n = 0 then acc
    else
      let acc' := if n % 2 = 1 then acc * base else acc
      let base' := base * base
      if acc'.val + base'.val < 2 ^ 452 then powAux fuel acc' base' (n / 2)
      else acc'

/-- `x ^ n` in `GF(p)` by binary exponentiation (460 bits of fuel
cover every exponent used here). -/
def fpow (x : F) (n : ℕ) : F := powAux 460 1 x n

/-- Modelled from the spec: `FieldElement::invert` (the field backend
is not under `src/`), realised as the Fermat inverse `x^(p-2)`; it
sends 0 to 0 as the spec requires. -/
def finv (x : F) : F := fpow x (p - 2)

/-- `ExtendedPoint::to_affine`: `(X·Z⁻¹, Y·Z⁻¹)`. -/
def to_affine (P : ExtendedPoint) : AffinePoint :=
  ⟨P.X * finv P.Z, P.Y * finv P.Z⟩

/-- Modelled from the spec: `AffinePoint::to_extended` (the affine
module is not under `src/`); spec §4.5 lifts `(x, y)` to the
projective point `(x, y, 1, x·y)`. -/
def AffinePoint.to_extended (a : AffinePoint) : ExtendedPoint :=
  ⟨a.x, a.y, 1, a.x * a.y⟩

/-- Twisted-curve extended point (struct `ExtendedPoint` of the
`twedwards` module; its four fields are visible in
`ExtendedPoint::edwards_isogeny` in the source). -/
structure TwistedExtendedPoint where
  X : F
  Y : F
  Z : F
  T : F
deriving DecidableEq, Repr

/-- `ExtendedPoint::edwards_isogeny`: affine conversion followed by
`x' = 2xy/(y² − a·x²)`, `y' = (y² + a·x²)/(2 − y² − a·x²)`,
returned with `Z = 1`, `T = x'·y'`. -/
def edwards_isogeny (P : ExtendedPoint) (a : F) : TwistedExtendedPoint :=
  let aff := to_affine P
  let x := aff.x
  let y := aff.y
  let xy := x * y
  let xNum := xy + xy
  let xDenom := y * y - a * (x * x)
  let newX := xNum * finv xDenom
  let yNum := y * y + a * (x * x)
  let yDenom := (1 + 1 : F) - y * y - a * (x * x)
  let newY := yNum * finv yDenom
  ⟨newX, newY, 1, newX * newY⟩

/-- `ExtendedPoint::to_twisted = edwards_isogeny(1)`. -/
def to_twisted (P : ExtendedPoint) : TwistedExtendedPoint :=
  edwards_isogeny P 1

/-- Modelled from the spec: the coefficient of the internal twisted
Edwards curve (`a = −1`); it is the image curve of the 4-isogeny of
spec §4.3, whose coefficient is `d − 1 = −39082`. -/
def twistedD : F := -39082

/-- Modelled from the spec: `to_untwisted` of the twisted-curve module
(not under `src/`) is the dual 4-isogeny, i.e. the generic isogeny of
spec §4.3 applied with `a = −1` to the affine form of the twisted
point. -/
def to_untwisted (tp : TwistedExtendedPoint) : ExtendedPoint :=
  let zinv := finv tp.Z
  let x := tp.X * zinv
  let y := tp.Y * zinv
  let xy := x * y
  let xNum := xy + xy
  let xDenom := y * y + x * x
  let newX := xNum * finv xDenom
  let yNum := y * y - x * x
  let yDenom := (1 + 1 : F) - y * y + x * x
  let newY := yNum * finv yDenom
  ⟨newX, newY, 1, newX * newY⟩

/-- The twisted identity `(0, 1, 1, 0)`. -/
def twisted_identity : TwistedExtendedPoint := ⟨0, 1, 1, 0⟩

/-- Modelled from the spec: the unified extended-coordinate addition
on the twisted curve (`a = −1`), used to realise the external
constant-time ladder `variable_base` as a mathematical scalar
multiple. -/
def twisted_add (P Q : TwistedExtendedPoint) : TwistedExtendedPoint :=
  let A := P.X * Q.X
  let B := P.Y * Q.Y
  let C := twistedD * P.T * Q.T
  let D := P.Z * Q.Z
  let E := (P.X + P.Y) * (Q.X + Q.Y) - A - B
  let Fv := D - C
  let G := D + C
  let H := B + A
  ⟨E * Fv, G * H, Fv * G, E * H⟩

/-- Scalars: the source `Scalar` is a 448-bit little-endian integer;
operations used by this module are byte access, division by four and
small constants, so a natural number models it faithfully. -/
abbrev Scalar := ℕ

/-- Modelled from the spec: `Scalar::div_by_four`, integer division of
the scalar value by 4 (spec §4.4, `q = s div 4`). -/
def divByFour (s : Scalar) : Scalar := s / 4

/-- Size bound used to force intermediate coordinates to normal form
inside the ladder; every sum of four field values is below it, so the
branch it guards is always taken. -/
def forceBound : ℕ := 2 ^ 452

/-- Sum of the coordinate values of a twisted point, used only as an
always-true size guard that forces evaluation. -/
def twisted_size (P : TwistedExtendedPoint) : ℕ :=
  P.X.val + P.Y.val + P.Z.val + P.T.val

/-- Modelled from the spec: `variable_base(P', q) = [q]·P'` on the
twisted curve (spec §6 collaborator contract), computed by a
least-significant-bit-first double-and-add over `twisted_add`, with
structural fuel recursion (460 bits cover every scalar the module
passes in) in accumulator form; the always-true size test keeps each
step's coordinates in normal form. -/
def variable_base_aux :
    ℕ → TwistedExtendedPoint → TwistedExtendedPoint → ℕ → TwistedExtendedPoint
  | 0, acc, _, _ => acc
  | fuel + 1, acc, base, n =>
    if n = 0 then acc
    else
      let acc' := if n % 2 = 1 then twisted_add acc base else acc
      let base' := twisted_add base base
      if twisted_size acc' + twisted_size base' < forceBound then
        variable_base_aux fuel acc' base' (n / 2)
      else acc'

/-- Modelled from the spec: the external twisted-curve ladder. -/
def variable_base (tp : TwistedExtendedPoint) (s : Scalar) : TwistedExtendedPoint :=
  variable_base_aux 460 twisted_identity tp s

/-- `ExtendedPoint::scalar_mod_four`: the four candidates and the four
conditional assignments keyed on `scalar[0] & 3` (the source reads the
low byte and masks with 3). -/
def scalar_mod_four (P : ExtendedPoint) (s : Scalar) : ExtendedPoint :=
  let sModFour := (s % 256) &&& 3
  let zeroP := identity
  let oneP := P
  let twoP := double oneP
  let threeP := add twoP P
  let r0 := identity
  let r1 := if sModFour = 0 then zeroP else r0
  let r2 := if sModFour = 1 then oneP else r1
  let r3 := if sModFour = 2 then twoP else r2
  if sModFour = 3 then threeP else r3

/-- `ExtendedPoint::scalar_mul`: `floor(s/4)` on the twisted curve via
the isogeny pair, plus the residue multiple. -/
def scalar_mul (P : ExtendedPoint) (s : Scalar) : ExtendedPoint :=
  let scalarDivFour := divByFour s
  add (to_untwisted (variable_base (to_twisted P) scalarDivFour))
    (scalar_mod_four P s)

/-- Modelled from the spec: `BASEPOINT_ORDER`, the Ed448 prime
subgroup order `ℓ` of RFC 8032 (the constants module is not under
`src/`). -/
def basepointOrder : Scalar :=
  2 ^ 446 - 13818066809895115352007386748515426880336692474882178609894547503885

/-- The historical base point of the `derive_base_points` test
(`old_x`, `old_y` hex constants, big-endian). -/
def old_bp : ExtendedPoint :=
  AffinePoint.to_extended
    ⟨(0x4F1970C66BED0DED221D15A622BF36DA9E146570470F1767EA6DE324A3D3A46412AE1AF72AB66511433B80E18B00938E2626A82BC70CC05E : F),
     (0x693F46716EB6BC248876203756C9C7624BEA73736CA3984087789C1E05A0C2D73AD3FF1CE67C39C4FDBD132C4ED7C8AD9808795BF230FA14 : F)⟩

/-- The RFC 8032 Ed448 base point (`new_x`, `new_y` hex constants of
the `derive_base_points` test, big-endian). -/
def rfc8032_bp : ExtendedPoint :=
  AffinePoint.to_extended
    ⟨(0xaaaaaaaaaaaaaaaaaaaaaaaaaaaaaaaaaaaaaaaaaaaaaaaaaaaaaaa955555555555555555555555555555555555555555555555555555555 : F),
     (0xae05e9634ad7048db359d6205086c2b0036ed7a035884dd7b7e36d728ad8c4b80d6565833a2a3098bbbcb2bed1cda06bdaeafbcdea9386ed : F)⟩

/-- `ExtendedPoint::GENERATOR = GOLDILOCKS_BASE_POINT`; the constant
itself lives outside `src/`, but the in-source test
`derive_base_points` asserts `GOLDILOCKS_BASE_POINT == old_bp`, so the
source pins it to the historical base point. -/
def GENERATOR : ExtendedPoint := old_bp

/-- `ExtendedPoint::is_torsion_free`:
`(self * BASEPOINT_ORDER) == IDENTITY`. -/
def is_torsion_free (P : ExtendedPoint) : Bool :=
  ctEq (scalar_mul P basepointOrder) identity

/-- Little-endian byte interpretation of a byte list. -/
def fromLEBytes (l : List ℕ) : ℕ :=
  l.foldr (fun b acc => b + 256 * acc) 0

/-- Modelled from the spec: `FieldElement::from_bytes`, 56-byte
little-endian with implicit reduction mod `p` (spec §6). -/
def from_bytes_field (l : List ℕ) : F := (fromLEBytes l : ℕ)

/-- Modelled from the spec: `FieldElement::is_negative`, the least
significant bit of the canonical encoding (spec §6). -/
def is_negative (x : F) : Bool := decide (x.val % 2 = 1)

/-- `subtle`'s `conditional_negate` on a field element. -/
def conditional_negate (x : F) (c : Bool) : F := if c then -x else x

/-- Modelled from the spec: `FieldElement::sqrt_ratio(n, d) → (r, ok)`
with `r²·d = n` when `ok` (spec §6); for this prime (`p ≡ 3 mod 4`)
the candidate root is `n·d·(n·d³)^((p−3)/4)` and the flag literally
checks the contract equation. -/
def sqrt_ratio (u v : F) : F × Bool :=
  let r := u * v * fpow (u * v * (v * v)) ((p - 3) / 4)
  (r, decide (r * r * v = u))

/-- `CompressedEdwardsY::decompress`, parameterised by the external
field collaborator `sqrt_ratio` (`sr`): split off the top byte, read
`y` little-endian from the first 56 bytes, compute
`(1 − y², 1 − d·y²)`, take the square root of the ratio, fix the sign
of `x` from bit 7 of the top byte, and lift `(x, y)`; the `CtOption`
is modelled by `Option` keyed on the validity flag. -/
def decompressWith (sr : F → F → F × Bool) (bytes : List ℕ) :
    Option ExtendedPoint :=
  let sign := bytes.getD 56 0
  let y := from_bytes_field (bytes.take 56)
  let yy := y * y
  let dyy := edwardsD * yy
  let numerator := 1 - yy
  let denominator := 1 - dyy
  let x0 := (sr numerator denominator).1
  let isRes := (sr numerator denominator).2
  let compressedSignBit := decide (sign / 128 ≠ 0)
  let x := conditional_negate x0 (xor compressedSignBit (is_negative x0))
  if isRes then some (AffinePoint.to_extended ⟨x, y⟩) else none

/-- `CompressedEdwardsY::decompress` with the modelled field backend. -/
def decompress (bytes : List ℕ) : Option ExtendedPoint :=
  decompressWith sqrt_ratio bytes

/-- `GroupEncoding::from_bytes`: copy the 57 bytes and decompress. -/
def from_bytes (sr : F → F → F × Bool) (bytes : List ℕ) :
    Option ExtendedPoint :=
  decompressWith sr bytes

/-- `GroupEncoding::from_bytes_unchecked`: identical body to
`from_bytes` in the source (copy the 57 bytes and decompress). -/
def from_bytes_unchecked (sr : F → F → F × Bool) (bytes : List ℕ) :
    Option ExtendedPoint :=
  decompressWith sr bytes

/-- The stateful RFC 9380 expander handle: the expanded stream plus a
read position (`Expander::fill_bytes` reads consecutive chunks). -/
structure ExpanderState where
  stream : List ℕ
  pos : ℕ

/-- `Expander::fill_bytes`: return the next `n` bytes and advance. -/
def fill_bytes (st : ExpanderState) (n : ℕ) : List ℕ × ExpanderState :=
  ((st.stream.drop st.pos).take n, ⟨st.stream, st.pos + n⟩)

/-- `ExtendedPoint::hash`, parameterised by the external collaborators
(the message expander, `FieldElement::from_okm`, Elligator2 and the
`iso448` 4-isogeny): expand to `84·2` bytes, fill two 84-byte chunks,
map each through Elligator2 and `iso448`, and multiply the sum by the
cofactor 4 through `scalar_mul`. -/
def hashWith (expandMessage : List ℕ → List ℕ → ℕ → List ℕ)
    (from_okm : List ℕ → F) (ell2 : F → AffinePoint)
    (iso448 : AffinePoint → AffinePoint) (msg dst : List ℕ) :
    ExtendedPoint :=
  let lenInBytes := 84 * 2
  let st0 : ExpanderState := ⟨expandMessage msg dst lenInBytes, 0⟩
  let r0 := fill_bytes st0 84
  let u0 := from_okm r0.1
  let r1 := fill_bytes r0.2 84
  let u1 := from_okm r1.1
  let q0 := iso448 (ell2 u0)
  let q1 := iso448 (ell2 u1)
  let cofactor : Scalar := 4
  scalar_mul (add q0.to_extended q1.to_extended) cofactor

/-- The `Sum` instance: fold `+` over the points starting from the
identity. -/
def sum (points : List ExtendedPoint) : ExtendedPoint :=
  points.foldl (fun acc item => add acc item) identity

/-- The `T·Z = X·Y` representation invariant (spec §3), written the
way `is_on_curve` checks it. -/
abbrev tInvariant (P : ExtendedPoint) : Prop := P.X * P.Y = P.Z * P.T

/-- The projective curve equation `Y² + X² = Z² + d·T²`, written the
way `is_on_curve` checks it. -/
abbrev onCurveEq (P : ExtendedPoint) : Prop :=
  P.Y * P.Y + P.X * P.X = P.Z * P.Z + P.T * P.T * edwardsD

/-- Affine `x` of the historical base point (isogeny-evaluation data). -/
def c4x : F := old_bp.X * finv old_bp.Z

/-- Affine `y` of the historical base point. -/
def c4y : F := old_bp.Y * finv old_bp.Z

/-- Twisted affine `x'` of the historical base point under
`edwards_isogeny _ 1`. -/
def c4X : F := (c4x * c4y + c4x * c4y) * finv (c4y * c4y - 1 * (c4x * c4x))

/-- Twisted affine `y'` of the historical base point under
`edwards_isogeny _ 1`. -/
def c4Y : F :=
  (c4y * c4y + 1 * (c4x * c4x)) *
    finv ((1 + 1 : F) - c4y * c4y - 1 * (c4x * c4x))

/-- Masking the low byte of a scalar with 3 is reduction mod 4. -/
theorem sModFour_eq_mod (s : Scalar) : (s % 256) &&& 3 = s % 4 := by
  have h : ∀ m < 256, m &&& 3 = m % 4 := by decide
  rw [h (s % 256) (Nat.mod_lt _ (by norm_num)), Nat.mod_mod_of_dvd s (by norm_num)]

/-- **C2**: `add` returns exactly the tuple of the unified
Hisil–Wong–Carter–Dawson formula with `a = 1`: with `A = X₁·X₂`,
`B = Y₁·Y₂`, `C = d·T₁·T₂`, `D = Z₁·Z₂`, `E = X₁·Y₂ + Y₁·X₂`,
`F = D − C`, `G = D + C`, `H = B − A`, the result is
`(E·F, H·G, F·G, H·E)`; and `double P` is defined as `add P P`. -/
theorem claim_C2 :
    (∀ P₁ P₂ : ExtendedPoint,
      add P₁ P₂ =
        { X := (P₁.X * P₂.Y + P₁.Y * P₂.X) *
                 (P₁.Z * P₂.Z - edwardsD * P₁.T * P₂.T)
          Y := (P₁.Y * P₂.Y - P₁.X * P₂.X) *
                 (P₁.Z * P₂.Z + edwardsD * P₁.T * P₂.T)
          Z := (P₁.Z * P₂.Z - edwardsD * P₁.T * P₂.T) *
                 (P₁.Z * P₂.Z + edwardsD * P₁.T * P₂.T)
          T := (P₁.Y * P₂.Y - P₁.X * P₂.X) *
                 (P₁.X * P₂.Y + P₁.Y * P₂.X) }) ∧
      ∀ P : ExtendedPoint, double P = add P P := by
  exact ⟨fun _ _ => rfl, fun _ => rfl⟩

/-- **C9**: `from_bytes_unchecked` and `from_bytes` are extensionally
equal: both perform full decompression, for every square-root backend
and every byte string. -/
theorem claim_C9 (sr : F → F → F × Bool) (bytes : List ℕ) :
    from_bytes_unchecked sr bytes = from_bytes sr bytes := rfl

/-- Witness for `claim_C9` at a concrete input. -/
theorem claim_C9_witness :
    from_bytes_unchecked sqrt_ratio (1 :: List.replicate 56 0) =
      from_bytes sqrt_ratio (1 :: List.replicate 56 0) :=
  claim_C9 sqrt_ratio (1 :: List.replicate 56 0)

/-- **C10**: the `Sum` instance folds point addition over the points
from the identity, and the empty sum is the identity point. -/
theorem claim_C10 :
    (∀ points : List ExtendedPoint,
      sum points = points.foldl (fun acc item => add acc item) identity) ∧
      sum [] = identity :=
  ⟨fun _ => rfl, rfl⟩

/-- **C5** (counterexample): doubling the historical base point does
not give `ExtendedPoint::GENERATOR` — the source pins `GENERATOR` to
the historical base point itself, and doubling moves it. -/
theorem claim_C5_counterexample : ctEq (double old_bp) GENERATOR = false := by
  decide

/-- **C5** (amended): doubling the historical base point yields the
RFC 8032 Ed448 base point; the source's `GENERATOR` is the historical
base point itself (the in-source test `derive_base_points` asserts
`GOLDILOCKS_BASE_POINT == old_bp`), so the doubled point differs from
`GENERATOR`. -/
theorem claim_C5 :
    ctEq (double old_bp) rfc8032_bp = true ∧
      GENERATOR = old_bp ∧ ctEq (double old_bp) GENERATOR = false := by
  refine ⟨by decide, rfl, by decide⟩

/-- **C8**: `is_torsion_free P` is the boolean `[ℓ]·P == identity`
(the code's scalar multiplication by `BASEPOINT_ORDER` compared with
the identity), and on the named constants it returns `true` for the
generator, `true` for the identity and `false` for the torqued
generator. -/
theorem claim_C8 :
    (∀ P : ExtendedPoint,
      is_torsion_free P = ctEq (scalar_mul P basepointOrder) identity) ∧
      is_torsion_free GENERATOR = true ∧
      is_torsion_free identity = true ∧
      is_torsion_free (torque GENERATOR) = false :=
  ⟨fun _ => rfl, by decide, by decide, by decide⟩

/-- Negation flips the canonical-encoding sign bit of a nonzero field
element (`p` is odd). -/
theorem is_negative_neg (x : F) (hx : x ≠ 0) :
    is_negative (-x) = !is_negative x := by
  have h1 : (-x).val = p - x.val := by
    rw [ZMod.neg_val]
    simp [hx]
  have h2 : x.val < p := ZMod.val_lt x
  have h3 : x.val ≠ 0 := by
    intro h
    exact hx ((ZMod.val_eq_zero x).mp h)
  have hp : p % 2 = 1 := by decide
  by_cases hv : x.val % 2 = 1
  · have h4 : (p - x.val) % 2 = 0 := by omega
    simp [is_negative, h1, h4, hv]
  · have h4 : (p - x.val) % 2 = 1 := by omega
    simp [is_negative, h1, h4, hv]

/-- **C3** (counterexample): on the 57-byte input encoding `y = 1`
with the sign bit set, decompression succeeds and returns the point
`(0, 1, 1, 0)` whose `x` has sign 0, while the requested sign `s` is
1 — so the returned `x`'s sign does not equal `s`. -/
theorem claim_C3_counterexample :
    decompress (1 :: (List.replicate 55 0 ++ [128])) =
        some ⟨0, 1, 1, 0⟩ ∧
      ((1 :: (List.replicate 55 0 ++ [128]) : List ℕ).getD 56 0) / 128 = 1 ∧
      is_negative (0 : F) = false :=
  ⟨by decide, by decide, by decide⟩

/-- **C3** (amended): for every 57-byte input (56 bytes `l` plus top
byte `t`) and every square-root backend satisfying the spec contract
at the decoded `y`, decompression parses `y` from the low 56 bytes
little-endian, uses only bit 7 of the top byte, returns `none`
exactly when `(1 − y²)/(1 − d·y²)` is a non-square (no `u` with
`u²·den = num`), and otherwise returns `(x, y, 1, x·y)` where `x` is
the returned root conditionally negated exactly when its sign differs
from `s`; consequently `sign(x) = s` whenever `x ≠ 0`. -/
theorem claim_C3 (sr : F → F → F × Bool) (l : List ℕ) (t : ℕ)
    (hl : l.length = 56)
    (y num den : F)
    (hy : y = from_bytes_field l)
    (hnum : num = 1 - y * y) (hden : den = 1 - edwardsD * (y * y))
    (hok : (sr num den).2 = true ↔ ∃ u : F, u * u * den = num) :
    (decompressWith sr (l ++ [t]) = none ↔ ¬∃ u : F, u * u * den = num) ∧
      (∀ t' : ℕ, t' / 128 = t / 128 →
        decompressWith sr (l ++ [t']) = decompressWith sr (l ++ [t])) ∧
      (∀ pt, decompressWith sr (l ++ [t]) = some pt →
        pt = AffinePoint.to_extended
            ⟨conditional_negate (sr num den).1
              (xor (decide (t / 128 ≠ 0)) (is_negative (sr num den).1)),
              y⟩ ∧
          pt.Z = 1 ∧ pt.T = pt.X * pt.Y ∧
          (pt.X ≠ 0 → is_negative pt.X = decide (t / 128 ≠ 0))) := by
  have htake : ∀ u : ℕ, (l ++ [u]).take 56 = l := by
    intro u
    rw [← hl]
    exact List.take_left l [u]
  have hgetD : ∀ u : ℕ, (l ++ [u]).getD 56 0 = u := by
    intro u
    rw [List.getD_append_right l [u] 0 56 (by omega)]
    simp [hl]
  have hbody : ∀ u : ℕ, decompressWith sr (l ++ [u]) =
      if (sr num den).2 then
        some (AffinePoint.to_extended
          ⟨conditional_negate (sr num den).1
            (xor (decide (u / 128 ≠ 0)) (is_negative (sr num den).1)), y⟩)
      else none := by
    intro u
    simp only [decompressWith]
    rw [hgetD u, htake u, ← hy, ← hnum, ← hden]
  refine ⟨?_, ?_, ?_⟩
  · rw [hbody t]
    by_cases hcase : (sr num den).2 = true
    · rw [if_pos hcase]
      constructor
      · intro h
        exact absurd h (Option.some_ne_none _)
      · intro h
        exact (h (hok.mp hcase)).elim
    · rw [if_neg hcase]
      exact ⟨fun _ hex => hcase (hok.mpr hex), fun _ => rfl⟩
  · intro t' ht'
    rw [hbody t', hbody t, ht']
  · intro pt hpt
    rw [hbody t] at hpt
    by_cases hcase : (sr num den).2 = true
    · rw [if_pos hcase] at hpt
      have hpt' := (Option.some.inj hpt).symm
      refine ⟨hpt', by rw [hpt']; rfl, by rw [hpt']; rfl, ?_⟩
      intro hx0
      rw [hpt'] at hx0 ⊢
      simp only [AffinePoint.to_extended] at hx0 ⊢
      generalize hres : (sr num den).1 = r at hx0 ⊢
      cases hs : decide (t / 128 ≠ 0) with
      | false =>
        cases hr : is_negative r with
        | false => simp [conditional_negate, hr]
        | true =>
          have hrne : r ≠ 0 := fun h0 =>
            hx0 (by simp [conditional_negate, h0])
          rw [show conditional_negate r (xor false true) = -r from rfl,
            is_negative_neg r hrne, hr]
          rfl
      | true =>
        cases hr : is_negative r with
        | false =>
          have hrne : r ≠ 0 := fun h0 =>
            hx0 (by simp [conditional_negate, h0])
          rw [show conditional_negate r (xor true false) = -r from rfl,
            is_negative_neg r hrne, hr]
          rfl
        | true => simp [conditional_negate, hr]
    · rw [if_neg hcase] at hpt
      exact absurd hpt (by simp)

/-- Witness for `claim_C3` at the concrete input `y = 1`, top byte
`128`: the input decompresses to a point (the ratio `0/(1 − d)` is a
square). -/
theorem claim_C3_witness :
    decompressWith sqrt_ratio ((1 :: List.replicate 55 0) ++ [128]) ≠ none := by
  have h := claim_C3 sqrt_ratio (1 :: List.replicate 55 0) 128 (by decide)
    1 (1 - (1 : F) * 1) (1 - edwardsD * ((1 : F) * 1))
    (by decide) rfl rfl
    ⟨fun _ => ⟨0, by decide⟩, fun _ => by decide⟩
  exact fun hn => (h.1.mp hn) ⟨0, by decide⟩

/-- **C7**: for every expander, okm-reduction, Elligator2 map and
4-isogeny collaborator, `hash` expands the message to `2·84 = 168`
bytes, the two `fill_bytes` reads are the first and second 84-byte
chunks of that expansion, each chunk becomes a field element `uᵢ`
mapped through Elligator2 and `iso448` to `Qᵢ`, and the result is the
cofactor multiple `scalar_mul (Q₀ + Q₁) 4`. -/
theorem claim_C7 (expandMessage : List ℕ → List ℕ → ℕ → List ℕ)
    (from_okm : List ℕ → F) (ell2 : F → AffinePoint)
    (iso448 : AffinePoint → AffinePoint) (msg dst : List ℕ) :
    hashWith expandMessage from_okm ell2 iso448 msg dst =
      scalar_mul
        (add
          (AffinePoint.to_extended (iso448 (ell2 (from_okm
            ((expandMessage msg dst 168).take 84)))))
          (AffinePoint.to_extended (iso448 (ell2 (from_okm
            (((expandMessage msg dst 168).drop 84).take 84))))))
        4 := by
  simp only [hashWith, fill_bytes]
  norm_num [List.drop_zero]

/-- **C1**: `scalar_mul P s` is exactly the twisted-ladder part
`to_untwisted (variable_base (to_twisted P) (s div 4))` added to
`scalar_mod_four P s`; `scalar_mod_four` selects `[s mod 4]·P` from
the four candidates `{identity, P, double P, double P + P}` keyed on
`s mod 4`; and consequently, for every additive interpretation `g`
that respects `add` and under the ladder/dual-isogeny contract
(`g` of the twisted part is `[4·(s div 4)]·(g P)`), `scalar_mul P s`
is the full multiple `[s]·(g P)`. -/
theorem claim_C1 (P : ExtendedPoint) (s : ℕ) :
    scalar_mul P s =
        add (to_untwisted (variable_base (to_twisted P) (s / 4)))
          (scalar_mod_four P s) ∧
      scalar_mod_four P s =
        (if s % 4 = 0 then identity
          else if s % 4 = 1 then P
          else if s % 4 = 2 then double P
          else add (double P) P) ∧
      ∀ (G : Type) [AddCommGroup G] (g : ExtendedPoint → G),
        (∀ A B, g (add A B) = g A + g B) →
        g (to_untwisted (variable_base (to_twisted P) (s / 4))) =
            (4 * (s / 4)) • g P →
        g (scalar_mul P s) = s • g P := by
  have hsel : scalar_mod_four P s =
      (if s % 4 = 0 then identity
        else if s % 4 = 1 then P
        else if s % 4 = 2 then double P
        else add (double P) P) := by
    simp only [scalar_mod_four, sModFour_eq_mod]
    rcases (show s % 4 = 0 ∨ s % 4 = 1 ∨ s % 4 = 2 ∨ s % 4 = 3 by omega)
      with h | h | h | h <;> simp [h, forceBound]
  refine ⟨rfl, hsel, ?_⟩
  intro G _ g hadd hC
  have hII : add identity identity = identity := by decide
  have h0 : g identity = 0 := by
    have h := hadd identity identity
    rw [hII] at h
    exact self_eq_add_left.mp h
  have hsmf : g (scalar_mod_four P s) = (s % 4) • g P := by
    rw [hsel]
    rcases (show s % 4 = 0 ∨ s % 4 = 1 ∨ s % 4 = 2 ∨ s % 4 = 3 by omega)
      with h | h | h | h <;> rw [h]
    · rw [if_pos rfl, h0, zero_nsmul]
    · rw [if_neg (by decide), if_pos rfl, one_nsmul]
    · rw [if_neg (by decide), if_neg (by decide), if_pos rfl,
        show double P = add P P from rfl, hadd, two_nsmul]
    · rw [if_neg (by decide), if_neg (by decide), if_neg (by decide),
        show double P = add P P from rfl, hadd, hadd,
        show (3 : ℕ) = 2 + 1 from rfl, add_nsmul, two_nsmul, one_nsmul]
  have hsplit : g (scalar_mul P s) =
      g (to_untwisted (variable_base (to_twisted P) (s / 4))) +
        g (scalar_mod_four P s) := hadd _ _
  rw [hsplit, hC, hsmf, ← add_nsmul, Nat.div_add_mod]

/-- Witness for `claim_C1` at `P = identity`, `s = 5`, with the
integers as the additive interpretation. -/
theorem claim_C1_witness :
    scalar_mul identity 5 =
        add (to_untwisted (variable_base (to_twisted identity) (5 / 4)))
          (scalar_mod_four identity 5) ∧
      (fun _ : ExtendedPoint => (0 : ℤ)) (scalar_mul identity 5) =
        (5 : ℕ) • (0 : ℤ) :=
  ⟨(claim_C1 identity 5).1,
    (claim_C1 identity 5).2.2 ℤ (fun _ => 0) (fun _ _ => by simp)
      (by simp)⟩

/-- The `T·Z = X·Y` invariant holds for the output of `add` for
arbitrary inputs: it is a ring identity of the four coordinate
products. -/
theorem tInv_add (P Q : ExtendedPoint) : tInvariant (add P Q) := by
  obtain ⟨x1, y1, z1, t1⟩ := P
  obtain ⟨x2, y2, z2, t2⟩ := Q
  simp only [tInvariant, add]
  ring

/-- Closure of the unified addition: if both inputs satisfy the
`T·Z = X·Y` invariant and the projective curve equation, so does the
sum. The `linear_combination` certificate is the explicit
ideal-membership cofactor decomposition of the Hisil–Wong–
Carter–Dawson closure identity. -/
theorem onCurveEq_add {P Q : ExtendedPoint}
    (ht1 : tInvariant P) (ht2 : tInvariant Q)
    (hc1 : onCurveEq P) (hc2 : onCurveEq Q) : onCurveEq (add P Q) := by
  obtain ⟨x1, y1, z1, t1⟩ := P
  obtain ⟨x2, y2, z2, t2⟩ := Q
  simp only [tInvariant, onCurveEq, add] at *
  linear_combination
    ((8 * edwardsD * (x1 * y1) * (x2 * y2)
        - 2 * edwardsD * (y1 * y1 - x1 * x1) * (y2 * y2 - x2 * x2))
          * (x2 * y2)
      - edwardsD * (y2 * y2 + x2 * x2) ^ 2 * (x1 * y1 + z1 * t1)) * ht1
    + ((8 * edwardsD * (x1 * y1) * (x2 * y2)
        - 2 * edwardsD * (y1 * y1 - x1 * x1) * (y2 * y2 - x2 * x2))
          * (t1 * z1)
      - edwardsD * (y1 * y1 + x1 * x1) ^ 2 * (x2 * y2 + z2 * t2)) * ht2
    + (-((y2 * y2 + x2 * x2) - z2 * z2)
          * ((y1 * y1 + x1 * x1) * (y2 * y2 + x2 * x2)
            + 2 * (z1 * z1) * (z2 * z2)
            - (edwardsD * t1 * t1) * (edwardsD * t2 * t2)
            - ((y1 * y1 + x1 * x1) - z1 * z1)
                * ((y2 * y2 + x2 * x2) - z2 * z2))
      + (z1 * z1) * (y2 * y2 + x2 * x2) ^ 2) * hc1
    + (-(edwardsD * t1 * t1)
          * ((y1 * y1 + x1 * x1) * (y2 * y2 + x2 * x2)
            + 2 * (z1 * z1) * (z2 * z2)
            - (edwardsD * t1 * t1) * (edwardsD * t2 * t2)
            - ((y1 * y1 + x1 * x1) - z1 * z1)
                * ((y2 * y2 + x2 * x2) - z2 * z2))
      + (z2 * z2) * (y1 * y1 + x1 * x1) ^ 2) * hc2

/-- Every successful decompression returns the lift of an affine
point. -/
theorem decompress_shape (sr : F → F → F × Bool) (bytes : List ℕ)
    (pt : ExtendedPoint) (hpt : decompressWith sr bytes = some pt) :
    ∃ a : AffinePoint, pt = a.to_extended := by
  simp only [decompressWith] at hpt
  by_cases hif : (sr (1 - from_bytes_field (List.take 56 bytes)
      * from_bytes_field (List.take 56 bytes))
      (1 - edwardsD * (from_bytes_field (List.take 56 bytes)
        * from_bytes_field (List.take 56 bytes)))).2 = true
  · rw [if_pos hif] at hpt
    exact ⟨_, (Option.some.inj hpt).symm⟩
  · rw [if_neg hif] at hpt
    exact absurd hpt (by simp)

/-- `scalar_mod_four` always returns one of the four candidate
points. -/
theorem scalar_mod_four_cases (P : ExtendedPoint) (s : ℕ) :
    scalar_mod_four P s = identity ∨ scalar_mod_four P s = P ∨
      scalar_mod_four P s = double P ∨
      scalar_mod_four P s = add (double P) P := by
  simp only [scalar_mod_four, sModFour_eq_mod]
  rcases (show s % 4 = 0 ∨ s % 4 = 1 ∨ s % 4 = 2 ∨ s % 4 = 3 by omega)
    with h | h | h | h <;> simp [h]

/-- **C6**: the representation invariant `T·Z = X·Y` holds for every
point the public API produces — unconditionally for `identity`,
`GENERATOR`, `add`, `double`, `scalar_mul` and decompression, and for
`negate`/`torque` whenever the input satisfies it — and the
projective curve equation `Y² + X² = Z² + d·T²` is maintained
whenever the inputs lie on the curve (for decompression under the
square-root collaborator contract `r²·den = num` when valid, and for
`scalar_mul` when the external twisted ladder and dual isogeny return
a point satisfying both invariants). -/
theorem claim_C6 :
    (tInvariant identity ∧ tInvariant GENERATOR ∧
      (∀ P Q, tInvariant (add P Q)) ∧
      (∀ P, tInvariant (double P)) ∧
      (∀ P, tInvariant P → tInvariant (negate P)) ∧
      (∀ P, tInvariant P → tInvariant (torque P)) ∧
      (∀ sr bytes pt, decompressWith sr bytes = some pt →
        tInvariant pt) ∧
      (∀ P s, tInvariant (scalar_mul P s))) ∧
    (onCurveEq identity ∧ onCurveEq GENERATOR ∧
      (∀ P Q, tInvariant P → tInvariant Q → onCurveEq P → onCurveEq Q →
        onCurveEq (add P Q)) ∧
      (∀ P, tInvariant P → onCurveEq P → onCurveEq (double P)) ∧
      (∀ P, onCurveEq P → onCurveEq (negate P)) ∧
      (∀ P, onCurveEq P → onCurveEq (torque P)) ∧
      (∀ sr bytes pt,
        (∀ u v : F, (sr u v).2 = true → (sr u v).1 * (sr u v).1 * v = u) →
        decompressWith sr bytes = some pt → onCurveEq pt) ∧
      (∀ P (s : ℕ),
        tInvariant (to_untwisted (variable_base (to_twisted P) (s / 4))) →
        onCurveEq (to_untwisted (variable_base (to_twisted P) (s / 4))) →
        tInvariant P → onCurveEq P → onCurveEq (scalar_mul P s))) := by
  have hics : onCurveEq identity := by decide
  have hitv : tInvariant identity := by decide
  have hdouble : ∀ P, tInvariant P → onCurveEq P → onCurveEq (double P) :=
    fun P ht hc => onCurveEq_add ht ht hc hc
  refine ⟨⟨hitv, by decide, tInv_add, fun P => tInv_add P P, ?_, ?_,
      ?_, fun P s => tInv_add _ _⟩,
    ⟨hics, by decide,
      fun P Q a b c d' => onCurveEq_add a b c d', hdouble, ?_, ?_, ?_, ?_⟩⟩
  · intro P h
    obtain ⟨x1, y1, z1, t1⟩ := P
    simp only [tInvariant, negate] at *
    linear_combination -h
  · intro P h
    obtain ⟨x1, y1, z1, t1⟩ := P
    simp only [tInvariant, torque] at *
    linear_combination h
  · intro sr bytes pt hpt
    obtain ⟨a, rfl⟩ := decompress_shape sr bytes pt hpt
    simp only [tInvariant, AffinePoint.to_extended]
    ring
  · intro P h
    obtain ⟨x1, y1, z1, t1⟩ := P
    simp only [onCurveEq, negate] at *
    linear_combination h
  · intro P h
    obtain ⟨x1, y1, z1, t1⟩ := P
    simp only [onCurveEq, torque] at *
    linear_combination h
  · intro sr bytes pt hcontract hpt
    simp only [decompressWith] at hpt
    by_cases hif : (sr (1 - from_bytes_field (List.take 56 bytes)
        * from_bytes_field (List.take 56 bytes))
        (1 - edwardsD * (from_bytes_field (List.take 56 bytes)
          * from_bytes_field (List.take 56 bytes)))).2 = true
    · rw [if_pos hif] at hpt
      have hc := hcontract (1 - from_bytes_field (List.take 56 bytes)
        * from_bytes_field (List.take 56 bytes))
        (1 - edwardsD * (from_bytes_field (List.take 56 bytes)
          * from_bytes_field (List.take 56 bytes))) hif
      rw [← Option.some.inj hpt]
      simp only [onCurveEq, AffinePoint.to_extended, conditional_negate]
      split <;> linear_combination hc
    · rw [if_neg hif] at hpt
      exact absurd hpt (by simp)
  · intro P s hti hci htP hcP
    have htsmf : tInvariant (scalar_mod_four P s) := by
      rcases scalar_mod_four_cases P s with h | h | h | h <;> rw [h]
      · exact hitv
      · exact htP
      · exact tInv_add P P
      · exact tInv_add _ _
    have hcsmf : onCurveEq (scalar_mod_four P s) := by
      rcases scalar_mod_four_cases P s with h | h | h | h <;> rw [h]
      · exact hics
      · exact hcP
      · exact hdouble P htP hcP
      · exact onCurveEq_add (tInv_add P P) htP (hdouble P htP hcP) hcP
    exact onCurveEq_add hti htsmf hci hcsmf

/-- Witness for `claim_C6` at the generator: the conditional parts
hold at concrete inputs. -/
theorem claim_C6_witness :
    tInvariant (negate GENERATOR) ∧ onCurveEq (double GENERATOR) := by
  refine ⟨(claim_C6.1.2.2.2.2.1) GENERATOR (by decide),
    (claim_C6.2.2.2.2.1) GENERATOR (by decide) (by decide)⟩


/-- The Fermat inverse of 1 is 1. -/
theorem finv_one : finv (1 : F) = 1 := by decide

/-- **C4**: composing the 4-isogeny with its dual multiplies by the
cofactor: for every point `P` on the curve (with the representation
invariant), with `(x, y)` its affine coordinates, `(X', Y')` the
twisted image computed by `x' = 2xy/(y² − x²)`,
`y' = (y² + x²)/(2 − y² − x²)` (with `Z = 1`, `T = x'·y'`), and all
inverted denominators actual units (the hypotheses `hZ`, `hdx`,
`hdy`, `hddx`, `hddy` certify each `finv` against its argument, which
holds for every genuine curve point since the curve is complete),
`to_untwisted (to_twisted P)` is projectively equal to
`double (double P) = [4]·P`. -/
theorem claim_C4 (P : ExtendedPoint) (x y X' Y' : F)
    (htP : P.X * P.Y = P.Z * P.T)
    (hcP : P.Y * P.Y + P.X * P.X = P.Z * P.Z + P.T * P.T * edwardsD)
    (hZ : P.Z * finv P.Z = 1)
    (hx : x = P.X * finv P.Z) (hy : y = P.Y * finv P.Z)
    (hdx : (y * y - 1 * (x * x)) * finv (y * y - 1 * (x * x)) = 1)
    (hdy : ((1 + 1 : F) - y * y - 1 * (x * x)) *
      finv ((1 + 1 : F) - y * y - 1 * (x * x)) = 1)
    (hX' : X' = (x * y + x * y) * finv (y * y - 1 * (x * x)))
    (hY' : Y' = (y * y + 1 * (x * x)) *
      finv ((1 + 1 : F) - y * y - 1 * (x * x)))
    (hddx : (Y' * Y' + X' * X') * finv (Y' * Y' + X' * X') = 1)
    (hddy : ((1 + 1 : F) - Y' * Y' + X' * X') *
      finv ((1 + 1 : F) - Y' * Y' + X' * X') = 1) :
    ctEq (to_untwisted (to_twisted P)) (double (double P)) = true := by
  have hXZ : x * P.Z = P.X := by
    rw [hx]
    linear_combination P.X * hZ
  have hYZ : y * P.Z = P.Y := by
    rw [hy]
    linear_combination P.Y * hZ
  have hTZ : x * y * P.Z = P.T := by
    rw [hx, hy]
    linear_combination (P.Z * (finv P.Z) ^ 2) * htP + (P.T + P.Z * P.T * (finv P.Z)) * hZ
  have haff : y * y + x * x = 1 + edwardsD * ((x * y) * (x * y)) := by
    rw [hx, hy]
    linear_combination (P.Z ^ 2 * (finv P.Z) ^ 4) * hcP + ((-1) * edwardsD * P.X * P.Y * (finv P.Z) ^ 4 + (-1) * P.Z * edwardsD * P.T * (finv P.Z) ^ 4) * htP + (1 + (-1) * P.Y ^ 2 * (finv P.Z) ^ 2 + (-1) * P.X ^ 2 * (finv P.Z) ^ 2 + P.Z * (finv P.Z) + (-1) * P.Z * P.Y ^ 2 * (finv P.Z) ^ 3 + (-1) * P.Z * P.X ^ 2 * (finv P.Z) ^ 3 + P.Z ^ 2 * (finv P.Z) ^ 2 + P.Z ^ 3 * (finv P.Z) ^ 3) * hZ
  simp only [ctEq, to_untwisted, to_twisted, edwards_isogeny, to_affine,
    double, add, Bool.and_eq_true, decide_eq_true_eq]
  rw [← hx, ← hy, finv_one]
  simp only [mul_one]
  rw [← hX', ← hY', ← hXZ, ← hYZ, ← hTZ]
  refine ⟨?_, ?_⟩
  · linear_combination
      ((-4) * (x * y) * (y * y - x * x) ^ 3 * P.Z ^ 16 * (finv (y * y - 1 * (x * x))) ^ 2 * (finv ((1
      + 1 : F) - y * y - 1 * (x * x))) ^ 2 * (finv (Y' * Y' + X' * X'))
      + (-8) * (x * y) * (y * y
      + x * x) * (y * y - x * x) * P.Z ^ 16 * (finv (y * y - 1 * (x * x))) ^ 2 * (finv ((1
      + 1 : F) - y * y - 1 * (x * x))) ^ 2 * (finv (Y' * Y' + X' * X'))
      + (-4) * (x * y) * (y * y
      + x * x) * (y * y - x * x) ^ 3 * P.Z ^ 16 * (finv (y * y - 1 * (x * x))) ^ 2 * (finv ((1
      + 1 : F) - y * y - 1 * (x * x))) ^ 2 * (finv (Y' * Y' + X' * X'))
      + (48) * (x * y) ^ 3 * (y * y - x * x) * P.Z ^ 16 * (finv (y * y - 1 * (x * x))) ^ 2 * (finv ((1
      + 1 : F) - y * y - 1 * (x * x))) ^ 2 * (finv (Y' * Y' + X' * X'))
      + (12) * (x * y) ^ 3 * (y * y - x * x) ^ 3 * P.Z ^ 16 * edwardsD * (finv (y * y - 1 * (x * x))) ^ 2 * (finv ((1
      + 1 : F) - y * y - 1 * (x * x))) ^ 2 * (finv (Y' * Y' + X' * X'))
      + (16) * (x * y) ^ 3 * (y * y - x * x) ^ 5 * P.Z ^ 16 * edwardsD * (finv (y * y - 1 * (x * x))) ^ 2 * (finv ((1
      + 1 : F) - y * y - 1 * (x * x))) ^ 2 * (finv (Y' * Y' + X' * X'))
      + (-16) * (x * y) ^ 3 * (y * y
      + x * x) * (y * y - x * x) * P.Z ^ 16 * (finv (y * y - 1 * (x * x))) ^ 2 * (finv ((1
      + 1 : F) - y * y - 1 * (x * x))) ^ 2 * (finv (Y' * Y' + X' * X'))
      + (8) * (x * y) ^ 3 * (y * y
      + x * x) * (y * y - x * x) * P.Z ^ 16 * edwardsD * (finv (y * y - 1 * (x * x))) ^ 2 * (finv ((1
      + 1 : F) - y * y - 1 * (x * x))) ^ 2 * (finv (Y' * Y' + X' * X'))
      + (16) * (x * y) ^ 3 * (y * y
      + x * x) * (y * y - x * x) ^ 3 * P.Z ^ 16 * edwardsD * (finv (y * y - 1 * (x * x))) ^ 2 * (finv ((1
      + 1 : F) - y * y - 1 * (x * x))) ^ 2 * (finv (Y' * Y' + X' * X'))
      + (16) * (x * y) ^ 3 * (y * y
      + x * x) * (y * y - x * x) ^ 5 * P.Z ^ 16 * edwardsD * (finv (y * y - 1 * (x * x))) ^ 2 * (finv ((1
      + 1 : F) - y * y - 1 * (x * x))) ^ 2 * (finv (Y' * Y' + X' * X'))
      + (-16) * (x * y) ^ 5 * (y * y - x * x) * P.Z ^ 16 * edwardsD * (finv (y * y - 1 * (x * x))) ^ 2 * (finv ((1
      + 1 : F) - y * y - 1 * (x * x))) ^ 2 * (finv (Y' * Y' + X' * X'))
      + (-192) * (x * y) ^ 5 * (y * y - x * x) ^ 3 * P.Z ^ 16 * edwardsD * (finv (y * y - 1 * (x * x))) ^ 2 * (finv ((1
      + 1 : F) - y * y - 1 * (x * x))) ^ 2 * (finv (Y' * Y' + X' * X'))
      + (-4) * (x * y) ^ 5 * (y * y - x * x) ^ 3 * P.Z ^ 16 * edwardsD ^ 2 * (finv (y * y - 1 * (x * x))) ^ 2 * (finv ((1
      + 1 : F) - y * y - 1 * (x * x))) ^ 2 * (finv (Y' * Y' + X' * X'))
      + (-48) * (x * y) ^ 5 * (y * y - x * x) ^ 5 * P.Z ^ 16 * edwardsD ^ 2 * (finv (y * y - 1 * (x * x))) ^ 2 * (finv ((1
      + 1 : F) - y * y - 1 * (x * x))) ^ 2 * (finv (Y' * Y' + X' * X'))
      + (24) * (x * y) ^ 5 * (y * y
      + x * x) * (y * y - x * x) * P.Z ^ 16 * edwardsD ^ 2 * (finv (y * y - 1 * (x * x))) ^ 2 * (finv ((1
      + 1 : F) - y * y - 1 * (x * x))) ^ 2 * (finv (Y' * Y' + X' * X'))
      + (64) * (x * y) ^ 5 * (y * y
      + x * x) * (y * y - x * x) ^ 3 * P.Z ^ 16 * edwardsD * (finv (y * y - 1 * (x * x))) ^ 2 * (finv ((1
      + 1 : F) - y * y - 1 * (x * x))) ^ 2 * (finv (Y' * Y' + X' * X'))
      + (-20) * (x * y) ^ 5 * (y * y
      + x * x) * (y * y - x * x) ^ 3 * P.Z ^ 16 * edwardsD ^ 2 * (finv (y * y - 1 * (x * x))) ^ 2 * (finv ((1
      + 1 : F) - y * y - 1 * (x * x))) ^ 2 * (finv (Y' * Y' + X' * X'))
      + (64) * (x * y) ^ 5 * (y * y
      + x * x) * (y * y - x * x) ^ 5 * P.Z ^ 16 * edwardsD ^ 2 * (finv (y * y - 1 * (x * x))) ^ 2 * (finv ((1
      + 1 : F) - y * y - 1 * (x * x))) ^ 2 * (finv (Y' * Y' + X' * X'))
      + (-144) * (x * y) ^ 7 * (y * y - x * x) * P.Z ^ 16 * edwardsD ^ 2 * (finv (y * y - 1 * (x * x))) ^ 2 * (finv ((1
      + 1 : F) - y * y - 1 * (x * x))) ^ 2 * (finv (Y' * Y' + X' * X'))
      + (64) * (x * y) ^ 7 * (y * y - x * x) ^ 3 * P.Z ^ 16 * edwardsD ^ 2 * (finv (y * y - 1 * (x * x))) ^ 2 * (finv ((1
      + 1 : F) - y * y - 1 * (x * x))) ^ 2 * (finv (Y' * Y' + X' * X'))
      + (-20) * (x * y) ^ 7 * (y * y - x * x) ^ 3 * P.Z ^ 16 * edwardsD ^ 3 * (finv (y * y - 1 * (x * x))) ^ 2 * (finv ((1
      + 1 : F) - y * y - 1 * (x * x))) ^ 2 * (finv (Y' * Y' + X' * X'))
      + (48) * (x * y) ^ 7 * (y * y - x * x) ^ 5 * P.Z ^ 16 * edwardsD ^ 3 * (finv (y * y - 1 * (x * x))) ^ 2 * (finv ((1
      + 1 : F) - y * y - 1 * (x * x))) ^ 2 * (finv (Y' * Y' + X' * X'))
      + (48) * (x * y) ^ 7 * (y * y
      + x * x) * (y * y - x * x) * P.Z ^ 16 * edwardsD ^ 2 * (finv (y * y - 1 * (x * x))) ^ 2 * (finv ((1
      + 1 : F) - y * y - 1 * (x * x))) ^ 2 * (finv (Y' * Y' + X' * X'))
      + (-24) * (x * y) ^ 7 * (y * y
      + x * x) * (y * y - x * x) * P.Z ^ 16 * edwardsD ^ 3 * (finv (y * y - 1 * (x * x))) ^ 2 * (finv ((1
      + 1 : F) - y * y - 1 * (x * x))) ^ 2 * (finv (Y' * Y' + X' * X'))
      + (-16) * (x * y) ^ 7 * (y * y
      + x * x) * (y * y - x * x) ^ 5 * P.Z ^ 16 * edwardsD ^ 3 * (finv (y * y - 1 * (x * x))) ^ 2 * (finv ((1
      + 1 : F) - y * y - 1 * (x * x))) ^ 2 * (finv (Y' * Y' + X' * X'))
      + (48) * (x * y) ^ 9 * (y * y - x * x) * P.Z ^ 16 * edwardsD ^ 3 * (finv (y * y - 1 * (x * x))) ^ 2 * (finv ((1
      + 1 : F) - y * y - 1 * (x * x))) ^ 2 * (finv (Y' * Y' + X' * X'))
      + (192) * (x * y) ^ 9 * (y * y - x * x) ^ 3 * P.Z ^ 16 * edwardsD ^ 3 * (finv (y * y - 1 * (x * x))) ^ 2 * (finv ((1
      + 1 : F) - y * y - 1 * (x * x))) ^ 2 * (finv (Y' * Y' + X' * X'))
      + (20) * (x * y) ^ 9 * (y * y - x * x) ^ 3 * P.Z ^ 16 * edwardsD ^ 4 * (finv (y * y - 1 * (x * x))) ^ 2 * (finv ((1
      + 1 : F) - y * y - 1 * (x * x))) ^ 2 * (finv (Y' * Y' + X' * X'))
      + (-16) * (x * y) ^ 9 * (y * y - x * x) ^ 5 * P.Z ^ 16 * edwardsD ^ 4 * (finv (y * y - 1 * (x * x))) ^ 2 * (finv ((1
      + 1 : F) - y * y - 1 * (x * x))) ^ 2 * (finv (Y' * Y' + X' * X'))
      + (-24) * (x * y) ^ 9 * (y * y
      + x * x) * (y * y - x * x) * P.Z ^ 16 * edwardsD ^ 4 * (finv (y * y - 1 * (x * x))) ^ 2 * (finv ((1
      + 1 : F) - y * y - 1 * (x * x))) ^ 2 * (finv (Y' * Y' + X' * X'))
      + (-64) * (x * y) ^ 9 * (y * y
      + x * x) * (y * y - x * x) ^ 3 * P.Z ^ 16 * edwardsD ^ 3 * (finv (y * y - 1 * (x * x))) ^ 2 * (finv ((1
      + 1 : F) - y * y - 1 * (x * x))) ^ 2 * (finv (Y' * Y' + X' * X'))
      + (20) * (x * y) ^ 9 * (y * y
      + x * x) * (y * y - x * x) ^ 3 * P.Z ^ 16 * edwardsD ^ 4 * (finv (y * y - 1 * (x * x))) ^ 2 * (finv ((1
      + 1 : F) - y * y - 1 * (x * x))) ^ 2 * (finv (Y' * Y' + X' * X'))
      + (144) * (x * y) ^ 11 * (y * y - x * x) * P.Z ^ 16 * edwardsD ^ 4 * (finv (y * y - 1 * (x * x))) ^ 2 * (finv ((1
      + 1 : F) - y * y - 1 * (x * x))) ^ 2 * (finv (Y' * Y' + X' * X'))
      + (-64) * (x * y) ^ 11 * (y * y - x * x) ^ 3 * P.Z ^ 16 * edwardsD ^ 4 * (finv (y * y - 1 * (x * x))) ^ 2 * (finv ((1
      + 1 : F) - y * y - 1 * (x * x))) ^ 2 * (finv (Y' * Y' + X' * X'))
      + (4) * (x * y) ^ 11 * (y * y - x * x) ^ 3 * P.Z ^ 16 * edwardsD ^ 5 * (finv (y * y - 1 * (x * x))) ^ 2 * (finv ((1
      + 1 : F) - y * y - 1 * (x * x))) ^ 2 * (finv (Y' * Y' + X' * X'))
      + (-48) * (x * y) ^ 11 * (y * y
      + x * x) * (y * y - x * x) * P.Z ^ 16 * edwardsD ^ 4 * (finv (y * y - 1 * (x * x))) ^ 2 * (finv ((1
      + 1 : F) - y * y - 1 * (x * x))) ^ 2 * (finv (Y' * Y' + X' * X'))
      + (24) * (x * y) ^ 11 * (y * y
      + x * x) * (y * y - x * x) * P.Z ^ 16 * edwardsD ^ 5 * (finv (y * y - 1 * (x * x))) ^ 2 * (finv ((1
      + 1 : F) - y * y - 1 * (x * x))) ^ 2 * (finv (Y' * Y' + X' * X'))
      + (-16) * (x * y) ^ 11 * (y * y
      + x * x) * (y * y - x * x) ^ 3 * P.Z ^ 16 * edwardsD ^ 5 * (finv (y * y - 1 * (x * x))) ^ 2 * (finv ((1
      + 1 : F) - y * y - 1 * (x * x))) ^ 2 * (finv (Y' * Y' + X' * X'))
      + (-48) * (x * y) ^ 13 * (y * y - x * x) * P.Z ^ 16 * edwardsD ^ 5 * (finv (y * y - 1 * (x * x))) ^ 2 * (finv ((1
      + 1 : F) - y * y - 1 * (x * x))) ^ 2 * (finv (Y' * Y' + X' * X'))
      + (-12) * (x * y) ^ 13 * (y * y - x * x) ^ 3 * P.Z ^ 16 * edwardsD ^ 6 * (finv (y * y - 1 * (x * x))) ^ 2 * (finv ((1
      + 1 : F) - y * y - 1 * (x * x))) ^ 2 * (finv (Y' * Y' + X' * X'))
      + (8) * (x * y) ^ 13 * (y * y
      + x * x) * (y * y - x * x) * P.Z ^ 16 * edwardsD ^ 6 * (finv (y * y - 1 * (x * x))) ^ 2 * (finv ((1
      + 1 : F) - y * y - 1 * (x * x))) ^ 2 * (finv (Y' * Y' + X' * X'))
      + (4) * (x * y) ^ 13 * (y * y
      + x * x) * (y * y - x * x) ^ 3 * P.Z ^ 16 * edwardsD ^ 6 * (finv (y * y - 1 * (x * x))) ^ 2 * (finv ((1
      + 1 : F) - y * y - 1 * (x * x))) ^ 2 * (finv (Y' * Y' + X' * X'))
      + (-48) * (x * y) ^ 15 * (y * y - x * x) * P.Z ^ 16 * edwardsD ^ 6 * (finv (y * y - 1 * (x * x))) ^ 2 * (finv ((1
      + 1 : F) - y * y - 1 * (x * x))) ^ 2 * (finv (Y' * Y' + X' * X'))
      + (4) * (x * y) ^ 15 * (y * y - x * x) ^ 3 * P.Z ^ 16 * edwardsD ^ 7 * (finv (y * y - 1 * (x * x))) ^ 2 * (finv ((1
      + 1 : F) - y * y - 1 * (x * x))) ^ 2 * (finv (Y' * Y' + X' * X'))
      + (16) * (x * y) ^ 15 * (y * y
      + x * x) * (y * y - x * x) * P.Z ^ 16 * edwardsD ^ 6 * (finv (y * y - 1 * (x * x))) ^ 2 * (finv ((1
      + 1 : F) - y * y - 1 * (x * x))) ^ 2 * (finv (Y' * Y' + X' * X'))
      + (-8) * (x * y) ^ 15 * (y * y
      + x * x) * (y * y - x * x) * P.Z ^ 16 * edwardsD ^ 7 * (finv (y * y - 1 * (x * x))) ^ 2 * (finv ((1
      + 1 : F) - y * y - 1 * (x * x))) ^ 2 * (finv (Y' * Y' + X' * X'))
      + (16) * (x * y) ^ 17 * (y * y - x * x) * P.Z ^ 16 * edwardsD ^ 7 * (finv (y * y - 1 * (x * x))) ^ 2 * (finv ((1
      + 1 : F) - y * y - 1 * (x * x))) ^ 2 * (finv (Y' * Y' + X' * X'))) * haff
      + ((-4) * (x * y) * (y * y
      + x * x) * P.Z ^ 16 * (finv (y * y - 1 * (x * x))) * (finv ((1
      + 1 : F) - y * y - 1 * (x * x))) * (finv (Y' * Y' + X' * X')) + (4) * (x * y) * (y * y
      + x * x) ^ 2 * (y * y - x * x) * P.Z ^ 16 * (finv ((1
      + 1 : F) - y * y - 1 * (x * x))) ^ 2 * (finv (Y' * Y' + X' * X'))
      + (4) * (x * y) * (y * y
      + x * x) ^ 2 * (y * y - x * x) ^ 2 * P.Z ^ 16 * (finv (y * y - 1 * (x * x))) * (finv ((1
      + 1 : F) - y * y - 1 * (x * x))) ^ 2 * (finv (Y' * Y' + X' * X'))
      + (-16) * (x * y) ^ 3 * (y * y
      + x * x) ^ 2 * (y * y - x * x) ^ 3 * P.Z ^ 16 * edwardsD * (finv ((1
      + 1 : F) - y * y - 1 * (x * x))) ^ 2 * (finv (Y' * Y' + X' * X'))
      + (-16) * (x * y) ^ 3 * (y * y
      + x * x) ^ 2 * (y * y - x * x) ^ 4 * P.Z ^ 16 * edwardsD * (finv (y * y - 1 * (x * x))) * (finv ((1
      + 1 : F) - y * y - 1 * (x * x))) ^ 2 * (finv (Y' * Y' + X' * X'))
      + (16) * (x * y) ^ 5 * (y * y
      + x * x) * P.Z ^ 16 * edwardsD ^ 2 * (finv (y * y - 1 * (x * x))) * (finv ((1
      + 1 : F) - y * y - 1 * (x * x))) * (finv (Y' * Y' + X' * X'))
      + (64) * (x * y) ^ 5 * (y * y
      + x * x) * (y * y - x * x) ^ 4 * P.Z ^ 16 * edwardsD ^ 2 * (finv (y * y - 1 * (x * x))) * (finv ((1
      + 1 : F) - y * y - 1 * (x * x))) * (finv (Y' * Y' + X' * X'))
      + (-12) * (x * y) ^ 5 * (y * y
      + x * x) ^ 2 * (y * y - x * x) * P.Z ^ 16 * edwardsD ^ 2 * (finv ((1
      + 1 : F) - y * y - 1 * (x * x))) ^ 2 * (finv (Y' * Y' + X' * X'))
      + (-12) * (x * y) ^ 5 * (y * y
      + x * x) ^ 2 * (y * y - x * x) ^ 2 * P.Z ^ 16 * edwardsD ^ 2 * (finv (y * y - 1 * (x * x))) * (finv ((1
      + 1 : F) - y * y - 1 * (x * x))) ^ 2 * (finv (Y' * Y' + X' * X'))
      + (16) * (x * y) ^ 7 * (y * y
      + x * x) ^ 2 * (y * y - x * x) ^ 3 * P.Z ^ 16 * edwardsD ^ 3 * (finv ((1
      + 1 : F) - y * y - 1 * (x * x))) ^ 2 * (finv (Y' * Y' + X' * X'))
      + (16) * (x * y) ^ 7 * (y * y
      + x * x) ^ 2 * (y * y - x * x) ^ 4 * P.Z ^ 16 * edwardsD ^ 3 * (finv (y * y - 1 * (x * x))) * (finv ((1
      + 1 : F) - y * y - 1 * (x * x))) ^ 2 * (finv (Y' * Y' + X' * X'))
      + (-24) * (x * y) ^ 9 * (y * y
      + x * x) * P.Z ^ 16 * edwardsD ^ 4 * (finv (y * y - 1 * (x * x))) * (finv ((1
      + 1 : F) - y * y - 1 * (x * x))) * (finv (Y' * Y' + X' * X'))
      + (12) * (x * y) ^ 9 * (y * y
      + x * x) ^ 2 * (y * y - x * x) * P.Z ^ 16 * edwardsD ^ 4 * (finv ((1
      + 1 : F) - y * y - 1 * (x * x))) ^ 2 * (finv (Y' * Y' + X' * X'))
      + (12) * (x * y) ^ 9 * (y * y
      + x * x) ^ 2 * (y * y - x * x) ^ 2 * P.Z ^ 16 * edwardsD ^ 4 * (finv (y * y - 1 * (x * x))) * (finv ((1
      + 1 : F) - y * y - 1 * (x * x))) ^ 2 * (finv (Y' * Y' + X' * X'))
      + (16) * (x * y) ^ 13 * (y * y
      + x * x) * P.Z ^ 16 * edwardsD ^ 6 * (finv (y * y - 1 * (x * x))) * (finv ((1
      + 1 : F) - y * y - 1 * (x * x))) * (finv (Y' * Y' + X' * X'))
      + (-4) * (x * y) ^ 13 * (y * y
      + x * x) ^ 2 * (y * y - x * x) * P.Z ^ 16 * edwardsD ^ 6 * (finv ((1
      + 1 : F) - y * y - 1 * (x * x))) ^ 2 * (finv (Y' * Y' + X' * X'))
      + (-4) * (x * y) ^ 13 * (y * y
      + x * x) ^ 2 * (y * y - x * x) ^ 2 * P.Z ^ 16 * edwardsD ^ 6 * (finv (y * y - 1 * (x * x))) * (finv ((1
      + 1 : F) - y * y - 1 * (x * x))) ^ 2 * (finv (Y' * Y' + X' * X'))
      + (-4) * (x * y) ^ 17 * (y * y
      + x * x) * P.Z ^ 16 * edwardsD ^ 8 * (finv (y * y - 1 * (x * x))) * (finv ((1
      + 1 : F) - y * y - 1 * (x * x))) * (finv (Y' * Y' + X' * X'))) * hdx
      + ((-4) * (x * y) * (y * y
      + x * x) * (y * y - x * x) * P.Z ^ 16 * (finv (y * y - 1 * (x * x))) ^ 2 * (finv ((1
      + 1 : F) - y * y - 1 * (x * x))) * (finv (Y' * Y' + X' * X'))
      + (16) * (x * y) ^ 3 * (y * y - x * x) * P.Z ^ 16 * (finv (y * y - 1 * (x * x))) ^ 2 * (finv (Y' * Y'
      + X' * X'))
      + (32) * (x * y) ^ 3 * (y * y - x * x) * P.Z ^ 16 * (finv (y * y - 1 * (x * x))) ^ 2 * (finv ((1
      + 1 : F) - y * y - 1 * (x * x))) * (finv (Y' * Y' + X' * X'))
      + (-16) * (x * y) ^ 3 * (y * y
      + x * x) * (y * y - x * x) * P.Z ^ 16 * (finv (y * y - 1 * (x * x))) ^ 2 * (finv ((1
      + 1 : F) - y * y - 1 * (x * x))) * (finv (Y' * Y' + X' * X'))
      + (-64) * (x * y) ^ 5 * (y * y - x * x) ^ 3 * P.Z ^ 16 * edwardsD * (finv (y * y - 1 * (x * x))) ^ 2 * (finv (Y' * Y'
      + X' * X'))
      + (-128) * (x * y) ^ 5 * (y * y - x * x) ^ 3 * P.Z ^ 16 * edwardsD * (finv (y * y - 1 * (x * x))) ^ 2 * (finv ((1
      + 1 : F) - y * y - 1 * (x * x))) * (finv (Y' * Y' + X' * X'))
      + (16) * (x * y) ^ 5 * (y * y
      + x * x) * (y * y - x * x) * P.Z ^ 16 * edwardsD ^ 2 * (finv (y * y - 1 * (x * x))) ^ 2 * (finv ((1
      + 1 : F) - y * y - 1 * (x * x))) * (finv (Y' * Y' + X' * X'))
      + (64) * (x * y) ^ 5 * (y * y
      + x * x) * (y * y - x * x) ^ 3 * P.Z ^ 16 * edwardsD * (finv (y * y - 1 * (x * x))) ^ 2 * (finv ((1
      + 1 : F) - y * y - 1 * (x * x))) * (finv (Y' * Y' + X' * X'))
      + (64) * (x * y) ^ 5 * (y * y
      + x * x) * (y * y - x * x) ^ 5 * P.Z ^ 16 * edwardsD ^ 2 * (finv (y * y - 1 * (x * x))) ^ 2 * (finv ((1
      + 1 : F) - y * y - 1 * (x * x))) * (finv (Y' * Y' + X' * X'))
      + (-48) * (x * y) ^ 7 * (y * y - x * x) * P.Z ^ 16 * edwardsD ^ 2 * (finv (y * y - 1 * (x * x))) ^ 2 * (finv (Y' * Y'
      + X' * X'))
      + (-96) * (x * y) ^ 7 * (y * y - x * x) * P.Z ^ 16 * edwardsD ^ 2 * (finv (y * y - 1 * (x * x))) ^ 2 * (finv ((1
      + 1 : F) - y * y - 1 * (x * x))) * (finv (Y' * Y' + X' * X'))
      + (48) * (x * y) ^ 7 * (y * y
      + x * x) * (y * y - x * x) * P.Z ^ 16 * edwardsD ^ 2 * (finv (y * y - 1 * (x * x))) ^ 2 * (finv ((1
      + 1 : F) - y * y - 1 * (x * x))) * (finv (Y' * Y' + X' * X'))
      + (64) * (x * y) ^ 9 * (y * y - x * x) ^ 3 * P.Z ^ 16 * edwardsD ^ 3 * (finv (y * y - 1 * (x * x))) ^ 2 * (finv (Y' * Y'
      + X' * X'))
      + (128) * (x * y) ^ 9 * (y * y - x * x) ^ 3 * P.Z ^ 16 * edwardsD ^ 3 * (finv (y * y - 1 * (x * x))) ^ 2 * (finv ((1
      + 1 : F) - y * y - 1 * (x * x))) * (finv (Y' * Y' + X' * X'))
      + (-24) * (x * y) ^ 9 * (y * y
      + x * x) * (y * y - x * x) * P.Z ^ 16 * edwardsD ^ 4 * (finv (y * y - 1 * (x * x))) ^ 2 * (finv ((1
      + 1 : F) - y * y - 1 * (x * x))) * (finv (Y' * Y' + X' * X'))
      + (-64) * (x * y) ^ 9 * (y * y
      + x * x) * (y * y - x * x) ^ 3 * P.Z ^ 16 * edwardsD ^ 3 * (finv (y * y - 1 * (x * x))) ^ 2 * (finv ((1
      + 1 : F) - y * y - 1 * (x * x))) * (finv (Y' * Y' + X' * X'))
      + (48) * (x * y) ^ 11 * (y * y - x * x) * P.Z ^ 16 * edwardsD ^ 4 * (finv (y * y - 1 * (x * x))) ^ 2 * (finv (Y' * Y'
      + X' * X'))
      + (96) * (x * y) ^ 11 * (y * y - x * x) * P.Z ^ 16 * edwardsD ^ 4 * (finv (y * y - 1 * (x * x))) ^ 2 * (finv ((1
      + 1 : F) - y * y - 1 * (x * x))) * (finv (Y' * Y' + X' * X'))
      + (-48) * (x * y) ^ 11 * (y * y
      + x * x) * (y * y - x * x) * P.Z ^ 16 * edwardsD ^ 4 * (finv (y * y - 1 * (x * x))) ^ 2 * (finv ((1
      + 1 : F) - y * y - 1 * (x * x))) * (finv (Y' * Y' + X' * X'))
      + (16) * (x * y) ^ 13 * (y * y
      + x * x) * (y * y - x * x) * P.Z ^ 16 * edwardsD ^ 6 * (finv (y * y - 1 * (x * x))) ^ 2 * (finv ((1
      + 1 : F) - y * y - 1 * (x * x))) * (finv (Y' * Y' + X' * X'))
      + (-16) * (x * y) ^ 15 * (y * y - x * x) * P.Z ^ 16 * edwardsD ^ 6 * (finv (y * y - 1 * (x * x))) ^ 2 * (finv (Y' * Y'
      + X' * X'))
      + (-32) * (x * y) ^ 15 * (y * y - x * x) * P.Z ^ 16 * edwardsD ^ 6 * (finv (y * y - 1 * (x * x))) ^ 2 * (finv ((1
      + 1 : F) - y * y - 1 * (x * x))) * (finv (Y' * Y' + X' * X'))
      + (16) * (x * y) ^ 15 * (y * y
      + x * x) * (y * y - x * x) * P.Z ^ 16 * edwardsD ^ 6 * (finv (y * y - 1 * (x * x))) ^ 2 * (finv ((1
      + 1 : F) - y * y - 1 * (x * x))) * (finv (Y' * Y' + X' * X'))
      + (-4) * (x * y) ^ 17 * (y * y
      + x * x) * (y * y - x * x) * P.Z ^ 16 * edwardsD ^ 8 * (finv (y * y - 1 * (x * x))) ^ 2 * (finv ((1
      + 1 : F) - y * y - 1 * (x * x))) * (finv (Y' * Y' + X' * X'))) * hdy
      + ((2) * P.Z ^ 16 * Y' * (finv (Y' * Y' + X' * X'))
      + (-4) * (x * y) * (y * y - x * x) * P.Z ^ 16 * X' * (finv (Y' * Y' + X' * X'))
      + (-8) * (x * y) ^ 2 * (y * y - x * x) * P.Z ^ 16 * (finv (y * y - 1 * (x * x))) * (finv (Y' * Y'
      + X' * X'))
      + (16) * (x * y) ^ 3 * (y * y - x * x) ^ 3 * P.Z ^ 16 * edwardsD * X' * (finv (Y' * Y'
      + X' * X')) + (-8) * (x * y) ^ 4 * P.Z ^ 16 * edwardsD ^ 2 * Y' * (finv (Y' * Y'
      + X' * X'))
      + (32) * (x * y) ^ 4 * (y * y - x * x) ^ 3 * P.Z ^ 16 * edwardsD * (finv (y * y - 1 * (x * x))) * (finv (Y' * Y'
      + X' * X'))
      + (-32) * (x * y) ^ 4 * (y * y - x * x) ^ 4 * P.Z ^ 16 * edwardsD ^ 2 * Y' * (finv (Y' * Y'
      + X' * X'))
      + (12) * (x * y) ^ 5 * (y * y - x * x) * P.Z ^ 16 * edwardsD ^ 2 * X' * (finv (Y' * Y'
      + X' * X'))
      + (24) * (x * y) ^ 6 * (y * y - x * x) * P.Z ^ 16 * edwardsD ^ 2 * (finv (y * y - 1 * (x * x))) * (finv (Y' * Y'
      + X' * X'))
      + (-16) * (x * y) ^ 7 * (y * y - x * x) ^ 3 * P.Z ^ 16 * edwardsD ^ 3 * X' * (finv (Y' * Y'
      + X' * X')) + (12) * (x * y) ^ 8 * P.Z ^ 16 * edwardsD ^ 4 * Y' * (finv (Y' * Y'
      + X' * X'))
      + (-32) * (x * y) ^ 8 * (y * y - x * x) ^ 3 * P.Z ^ 16 * edwardsD ^ 3 * (finv (y * y - 1 * (x * x))) * (finv (Y' * Y'
      + X' * X'))
      + (-12) * (x * y) ^ 9 * (y * y - x * x) * P.Z ^ 16 * edwardsD ^ 4 * X' * (finv (Y' * Y'
      + X' * X'))
      + (-24) * (x * y) ^ 10 * (y * y - x * x) * P.Z ^ 16 * edwardsD ^ 4 * (finv (y * y - 1 * (x * x))) * (finv (Y' * Y'
      + X' * X')) + (-8) * (x * y) ^ 12 * P.Z ^ 16 * edwardsD ^ 6 * Y' * (finv (Y' * Y'
      + X' * X'))
      + (4) * (x * y) ^ 13 * (y * y - x * x) * P.Z ^ 16 * edwardsD ^ 6 * X' * (finv (Y' * Y'
      + X' * X'))
      + (8) * (x * y) ^ 14 * (y * y - x * x) * P.Z ^ 16 * edwardsD ^ 6 * (finv (y * y - 1 * (x * x))) * (finv (Y' * Y'
      + X' * X')) + (2) * (x * y) ^ 16 * P.Z ^ 16 * edwardsD ^ 8 * Y' * (finv (Y' * Y'
      + X' * X'))) * hX'
      + ((4) * (x * y) * P.Z ^ 16 * (finv (y * y - 1 * (x * x))) * (finv (Y' * Y' + X' * X'))
      + (-4) * (x * y) * (y * y - x * x) * P.Z ^ 16 * Y' * (finv (Y' * Y' + X' * X'))
      + (-4) * (x * y) * (y * y + x * x) * (y * y - x * x) * P.Z ^ 16 * (finv ((1
      + 1 : F) - y * y - 1 * (x * x))) * (finv (Y' * Y' + X' * X'))
      + (16) * (x * y) ^ 3 * (y * y - x * x) ^ 3 * P.Z ^ 16 * edwardsD * Y' * (finv (Y' * Y'
      + X' * X')) + (16) * (x * y) ^ 3 * (y * y
      + x * x) * (y * y - x * x) ^ 3 * P.Z ^ 16 * edwardsD * (finv ((1
      + 1 : F) - y * y - 1 * (x * x))) * (finv (Y' * Y' + X' * X'))
      + (-16) * (x * y) ^ 5 * P.Z ^ 16 * edwardsD ^ 2 * (finv (y * y - 1 * (x * x))) * (finv (Y' * Y'
      + X' * X'))
      + (12) * (x * y) ^ 5 * (y * y - x * x) * P.Z ^ 16 * edwardsD ^ 2 * Y' * (finv (Y' * Y'
      + X' * X'))
      + (-64) * (x * y) ^ 5 * (y * y - x * x) ^ 4 * P.Z ^ 16 * edwardsD ^ 2 * (finv (y * y - 1 * (x * x))) * (finv (Y' * Y'
      + X' * X')) + (12) * (x * y) ^ 5 * (y * y
      + x * x) * (y * y - x * x) * P.Z ^ 16 * edwardsD ^ 2 * (finv ((1
      + 1 : F) - y * y - 1 * (x * x))) * (finv (Y' * Y' + X' * X'))
      + (-16) * (x * y) ^ 7 * (y * y - x * x) ^ 3 * P.Z ^ 16 * edwardsD ^ 3 * Y' * (finv (Y' * Y'
      + X' * X')) + (-16) * (x * y) ^ 7 * (y * y
      + x * x) * (y * y - x * x) ^ 3 * P.Z ^ 16 * edwardsD ^ 3 * (finv ((1
      + 1 : F) - y * y - 1 * (x * x))) * (finv (Y' * Y' + X' * X'))
      + (24) * (x * y) ^ 9 * P.Z ^ 16 * edwardsD ^ 4 * (finv (y * y - 1 * (x * x))) * (finv (Y' * Y'
      + X' * X'))
      + (-12) * (x * y) ^ 9 * (y * y - x * x) * P.Z ^ 16 * edwardsD ^ 4 * Y' * (finv (Y' * Y'
      + X' * X')) + (-12) * (x * y) ^ 9 * (y * y
      + x * x) * (y * y - x * x) * P.Z ^ 16 * edwardsD ^ 4 * (finv ((1
      + 1 : F) - y * y - 1 * (x * x))) * (finv (Y' * Y' + X' * X'))
      + (-16) * (x * y) ^ 13 * P.Z ^ 16 * edwardsD ^ 6 * (finv (y * y - 1 * (x * x))) * (finv (Y' * Y'
      + X' * X'))
      + (4) * (x * y) ^ 13 * (y * y - x * x) * P.Z ^ 16 * edwardsD ^ 6 * Y' * (finv (Y' * Y'
      + X' * X')) + (4) * (x * y) ^ 13 * (y * y
      + x * x) * (y * y - x * x) * P.Z ^ 16 * edwardsD ^ 6 * (finv ((1
      + 1 : F) - y * y - 1 * (x * x))) * (finv (Y' * Y' + X' * X'))
      + (4) * (x * y) ^ 17 * P.Z ^ 16 * edwardsD ^ 8 * (finv (y * y - 1 * (x * x))) * (finv (Y' * Y'
      + X' * X'))) * hY' + ((4) * (x * y) * (y * y - x * x) * P.Z ^ 16
      + (-16) * (x * y) ^ 3 * (y * y - x * x) ^ 3 * P.Z ^ 16 * edwardsD
      + (-12) * (x * y) ^ 5 * (y * y - x * x) * P.Z ^ 16 * edwardsD ^ 2
      + (16) * (x * y) ^ 7 * (y * y - x * x) ^ 3 * P.Z ^ 16 * edwardsD ^ 3
      + (12) * (x * y) ^ 9 * (y * y - x * x) * P.Z ^ 16 * edwardsD ^ 4
      + (-4) * (x * y) ^ 13 * (y * y - x * x) * P.Z ^ 16 * edwardsD ^ 6) * hddx
  · linear_combination
      ((7) * (y * y - x * x) ^ 4 * P.Z ^ 16 * (finv (y * y - 1 * (x * x))) ^ 2 * (finv ((1
      + 1 : F) - y * y - 1 * (x * x))) ^ 2 * (finv ((1 + 1 : F) - Y' * Y' + X' * X'))
      + (-1) * (y * y
      + x * x) * (y * y - x * x) ^ 4 * P.Z ^ 16 * (finv (y * y - 1 * (x * x))) ^ 2 * (finv ((1
      + 1 : F) - y * y - 1 * (x * x))) ^ 2 * (finv ((1 + 1 : F) - Y' * Y' + X' * X'))
      + (16) * (x * y) ^ 2 * P.Z ^ 16 * (finv (y * y - 1 * (x * x))) ^ 2 * (finv ((1
      + 1 : F) - y * y - 1 * (x * x))) ^ 2 * (finv ((1 + 1 : F) - Y' * Y' + X' * X'))
      + (-16) * (x * y) ^ 2 * (y * y - x * x) ^ 2 * P.Z ^ 16 * (finv (y * y - 1 * (x * x))) ^ 2 * (finv ((1
      + 1 : F) - y * y - 1 * (x * x))) ^ 2 * (finv ((1 + 1 : F) - Y' * Y' + X' * X'))
      + (9) * (x * y) ^ 2 * (y * y - x * x) ^ 4 * P.Z ^ 16 * edwardsD * (finv (y * y - 1 * (x * x))) ^ 2 * (finv ((1
      + 1 : F) - y * y - 1 * (x * x))) ^ 2 * (finv ((1 + 1 : F) - Y' * Y' + X' * X'))
      + (28) * (x * y) ^ 2 * (y * y - x * x) ^ 6 * P.Z ^ 16 * edwardsD * (finv (y * y - 1 * (x * x))) ^ 2 * (finv ((1
      + 1 : F) - y * y - 1 * (x * x))) ^ 2 * (finv ((1 + 1 : F) - Y' * Y' + X' * X'))
      + (-6) * (x * y) ^ 2 * (y * y
      + x * x) * (y * y - x * x) ^ 4 * P.Z ^ 16 * edwardsD * (finv (y * y - 1 * (x * x))) ^ 2 * (finv ((1
      + 1 : F) - y * y - 1 * (x * x))) ^ 2 * (finv ((1 + 1 : F) - Y' * Y' + X' * X'))
      + (-4) * (x * y) ^ 2 * (y * y
      + x * x) * (y * y - x * x) ^ 6 * P.Z ^ 16 * edwardsD * (finv (y * y - 1 * (x * x))) ^ 2 * (finv ((1
      + 1 : F) - y * y - 1 * (x * x))) ^ 2 * (finv ((1 + 1 : F) - Y' * Y' + X' * X'))
      + (-48) * (x * y) ^ 4 * P.Z ^ 16 * (finv (y * y - 1 * (x * x))) ^ 2 * (finv ((1
      + 1 : F) - y * y - 1 * (x * x))) ^ 2 * (finv ((1 + 1 : F) - Y' * Y' + X' * X'))
      + (-16) * (x * y) ^ 4 * P.Z ^ 16 * edwardsD * (finv (y * y - 1 * (x * x))) ^ 2 * (finv ((1
      + 1 : F) - y * y - 1 * (x * x))) ^ 2 * (finv ((1 + 1 : F) - Y' * Y' + X' * X'))
      + (96) * (x * y) ^ 4 * (y * y - x * x) ^ 2 * P.Z ^ 16 * edwardsD * (finv (y * y - 1 * (x * x))) ^ 2 * (finv ((1
      + 1 : F) - y * y - 1 * (x * x))) ^ 2 * (finv ((1 + 1 : F) - Y' * Y' + X' * X'))
      + (-64) * (x * y) ^ 4 * (y * y - x * x) ^ 4 * P.Z ^ 16 * edwardsD * (finv (y * y - 1 * (x * x))) ^ 2 * (finv ((1
      + 1 : F) - y * y - 1 * (x * x))) ^ 2 * (finv ((1 + 1 : F) - Y' * Y' + X' * X'))
      + (-13) * (x * y) ^ 4 * (y * y - x * x) ^ 4 * P.Z ^ 16 * edwardsD ^ 2 * (finv (y * y - 1 * (x * x))) ^ 2 * (finv ((1
      + 1 : F) - y * y - 1 * (x * x))) ^ 2 * (finv ((1 + 1 : F) - Y' * Y' + X' * X'))
      + (36) * (x * y) ^ 4 * (y * y - x * x) ^ 6 * P.Z ^ 16 * edwardsD ^ 2 * (finv (y * y - 1 * (x * x))) ^ 2 * (finv ((1
      + 1 : F) - y * y - 1 * (x * x))) ^ 2 * (finv ((1 + 1 : F) - Y' * Y' + X' * X'))
      + (16) * (x * y) ^ 4 * (y * y
      + x * x) * P.Z ^ 16 * (finv (y * y - 1 * (x * x))) ^ 2 * (finv ((1
      + 1 : F) - y * y - 1 * (x * x))) ^ 2 * (finv ((1 + 1 : F) - Y' * Y' + X' * X'))
      + (-16) * (x * y) ^ 4 * (y * y
      + x * x) * P.Z ^ 16 * edwardsD * (finv (y * y - 1 * (x * x))) ^ 2 * (finv ((1
      + 1 : F) - y * y - 1 * (x * x))) ^ 2 * (finv ((1 + 1 : F) - Y' * Y' + X' * X'))
      + (x * y) ^ 4 * (y * y
      + x * x) * (y * y - x * x) ^ 4 * P.Z ^ 16 * edwardsD ^ 2 * (finv (y * y - 1 * (x * x))) ^ 2 * (finv ((1
      + 1 : F) - y * y - 1 * (x * x))) ^ 2 * (finv ((1 + 1 : F) - Y' * Y' + X' * X'))
      + (-24) * (x * y) ^ 4 * (y * y
      + x * x) * (y * y - x * x) ^ 6 * P.Z ^ 16 * edwardsD ^ 2 * (finv (y * y - 1 * (x * x))) ^ 2 * (finv ((1
      + 1 : F) - y * y - 1 * (x * x))) ^ 2 * (finv ((1 + 1 : F) - Y' * Y' + X' * X'))
      + (112) * (x * y) ^ 6 * P.Z ^ 16 * edwardsD * (finv (y * y - 1 * (x * x))) ^ 2 * (finv ((1
      + 1 : F) - y * y - 1 * (x * x))) ^ 2 * (finv ((1 + 1 : F) - Y' * Y' + X' * X'))
      + (-48) * (x * y) ^ 6 * P.Z ^ 16 * edwardsD ^ 2 * (finv (y * y - 1 * (x * x))) ^ 2 * (finv ((1
      + 1 : F) - y * y - 1 * (x * x))) ^ 2 * (finv ((1 + 1 : F) - Y' * Y' + X' * X'))
      + (-192) * (x * y) ^ 6 * (y * y - x * x) ^ 2 * P.Z ^ 16 * edwardsD * (finv (y * y - 1 * (x * x))) ^ 2 * (finv ((1
      + 1 : F) - y * y - 1 * (x * x))) ^ 2 * (finv ((1 + 1 : F) - Y' * Y' + X' * X'))
      + (-48) * (x * y) ^ 6 * (y * y - x * x) ^ 2 * P.Z ^ 16 * edwardsD ^ 2 * (finv (y * y - 1 * (x * x))) ^ 2 * (finv ((1
      + 1 : F) - y * y - 1 * (x * x))) ^ 2 * (finv ((1 + 1 : F) - Y' * Y' + X' * X'))
      + (128) * (x * y) ^ 6 * (y * y - x * x) ^ 4 * P.Z ^ 16 * edwardsD ^ 2 * (finv (y * y - 1 * (x * x))) ^ 2 * (finv ((1
      + 1 : F) - y * y - 1 * (x * x))) ^ 2 * (finv ((1 + 1 : F) - Y' * Y' + X' * X'))
      + (-19) * (x * y) ^ 6 * (y * y - x * x) ^ 4 * P.Z ^ 16 * edwardsD ^ 3 * (finv (y * y - 1 * (x * x))) ^ 2 * (finv ((1
      + 1 : F) - y * y - 1 * (x * x))) ^ 2 * (finv ((1 + 1 : F) - Y' * Y' + X' * X'))
      + (4) * (x * y) ^ 6 * (y * y - x * x) ^ 6 * P.Z ^ 16 * edwardsD ^ 3 * (finv (y * y - 1 * (x * x))) ^ 2 * (finv ((1
      + 1 : F) - y * y - 1 * (x * x))) ^ 2 * (finv ((1 + 1 : F) - Y' * Y' + X' * X'))
      + (-32) * (x * y) ^ 6 * (y * y
      + x * x) * P.Z ^ 16 * edwardsD * (finv (y * y - 1 * (x * x))) ^ 2 * (finv ((1
      + 1 : F) - y * y - 1 * (x * x))) ^ 2 * (finv ((1 + 1 : F) - Y' * Y' + X' * X'))
      + (32) * (x * y) ^ 6 * (y * y
      + x * x) * P.Z ^ 16 * edwardsD ^ 2 * (finv (y * y - 1 * (x * x))) ^ 2 * (finv ((1
      + 1 : F) - y * y - 1 * (x * x))) ^ 2 * (finv ((1 + 1 : F) - Y' * Y' + X' * X'))
      + (64) * (x * y) ^ 6 * (y * y
      + x * x) * (y * y - x * x) ^ 2 * P.Z ^ 16 * edwardsD * (finv (y * y - 1 * (x * x))) ^ 2 * (finv ((1
      + 1 : F) - y * y - 1 * (x * x))) ^ 2 * (finv ((1 + 1 : F) - Y' * Y' + X' * X'))
      + (-64) * (x * y) ^ 6 * (y * y
      + x * x) * (y * y - x * x) ^ 2 * P.Z ^ 16 * edwardsD ^ 2 * (finv (y * y - 1 * (x * x))) ^ 2 * (finv ((1
      + 1 : F) - y * y - 1 * (x * x))) ^ 2 * (finv ((1 + 1 : F) - Y' * Y' + X' * X'))
      + (12) * (x * y) ^ 6 * (y * y
      + x * x) * (y * y - x * x) ^ 4 * P.Z ^ 16 * edwardsD ^ 3 * (finv (y * y - 1 * (x * x))) ^ 2 * (finv ((1
      + 1 : F) - y * y - 1 * (x * x))) ^ 2 * (finv ((1 + 1 : F) - Y' * Y' + X' * X'))
      + (-4) * (x * y) ^ 6 * (y * y
      + x * x) * (y * y - x * x) ^ 6 * P.Z ^ 16 * edwardsD ^ 3 * (finv (y * y - 1 * (x * x))) ^ 2 * (finv ((1
      + 1 : F) - y * y - 1 * (x * x))) ^ 2 * (finv ((1 + 1 : F) - Y' * Y' + X' * X'))
      + (16) * (x * y) ^ 8 * P.Z ^ 16 * edwardsD ^ 2 * (finv (y * y - 1 * (x * x))) ^ 2 * (finv ((1
      + 1 : F) - y * y - 1 * (x * x))) ^ 2 * (finv ((1 + 1 : F) - Y' * Y' + X' * X'))
      + (48) * (x * y) ^ 8 * P.Z ^ 16 * edwardsD ^ 3 * (finv (y * y - 1 * (x * x))) ^ 2 * (finv ((1
      + 1 : F) - y * y - 1 * (x * x))) ^ 2 * (finv ((1 + 1 : F) - Y' * Y' + X' * X'))
      + (448) * (x * y) ^ 8 * (y * y - x * x) ^ 2 * P.Z ^ 16 * edwardsD ^ 2 * (finv (y * y - 1 * (x * x))) ^ 2 * (finv ((1
      + 1 : F) - y * y - 1 * (x * x))) ^ 2 * (finv ((1 + 1 : F) - Y' * Y' + X' * X'))
      + (-128) * (x * y) ^ 8 * (y * y - x * x) ^ 2 * P.Z ^ 16 * edwardsD ^ 3 * (finv (y * y - 1 * (x * x))) ^ 2 * (finv ((1
      + 1 : F) - y * y - 1 * (x * x))) ^ 2 * (finv ((1 + 1 : F) - Y' * Y' + X' * X'))
      + (-64) * (x * y) ^ 8 * (y * y - x * x) ^ 4 * P.Z ^ 16 * edwardsD ^ 3 * (finv (y * y - 1 * (x * x))) ^ 2 * (finv ((1
      + 1 : F) - y * y - 1 * (x * x))) ^ 2 * (finv ((1 + 1 : F) - Y' * Y' + X' * X'))
      + (5) * (x * y) ^ 8 * (y * y - x * x) ^ 4 * P.Z ^ 16 * edwardsD ^ 4 * (finv (y * y - 1 * (x * x))) ^ 2 * (finv ((1
      + 1 : F) - y * y - 1 * (x * x))) ^ 2 * (finv ((1 + 1 : F) - Y' * Y' + X' * X'))
      + (-4) * (x * y) ^ 8 * (y * y - x * x) ^ 6 * P.Z ^ 16 * edwardsD ^ 4 * (finv (y * y - 1 * (x * x))) ^ 2 * (finv ((1
      + 1 : F) - y * y - 1 * (x * x))) ^ 2 * (finv ((1 + 1 : F) - Y' * Y' + X' * X'))
      + (-16) * (x * y) ^ 8 * (y * y
      + x * x) * P.Z ^ 16 * edwardsD ^ 2 * (finv (y * y - 1 * (x * x))) ^ 2 * (finv ((1
      + 1 : F) - y * y - 1 * (x * x))) ^ 2 * (finv ((1 + 1 : F) - Y' * Y' + X' * X'))
      + (16) * (x * y) ^ 8 * (y * y
      + x * x) * P.Z ^ 16 * edwardsD ^ 3 * (finv (y * y - 1 * (x * x))) ^ 2 * (finv ((1
      + 1 : F) - y * y - 1 * (x * x))) ^ 2 * (finv ((1 + 1 : F) - Y' * Y' + X' * X'))
      + (-128) * (x * y) ^ 8 * (y * y
      + x * x) * (y * y - x * x) ^ 2 * P.Z ^ 16 * edwardsD ^ 2 * (finv (y * y - 1 * (x * x))) ^ 2 * (finv ((1
      + 1 : F) - y * y - 1 * (x * x))) ^ 2 * (finv ((1 + 1 : F) - Y' * Y' + X' * X'))
      + (128) * (x * y) ^ 8 * (y * y
      + x * x) * (y * y - x * x) ^ 2 * P.Z ^ 16 * edwardsD ^ 3 * (finv (y * y - 1 * (x * x))) ^ 2 * (finv ((1
      + 1 : F) - y * y - 1 * (x * x))) ^ 2 * (finv ((1 + 1 : F) - Y' * Y' + X' * X'))
      + (x * y) ^ 8 * (y * y
      + x * x) * (y * y - x * x) ^ 4 * P.Z ^ 16 * edwardsD ^ 4 * (finv (y * y - 1 * (x * x))) ^ 2 * (finv ((1
      + 1 : F) - y * y - 1 * (x * x))) ^ 2 * (finv ((1 + 1 : F) - Y' * Y' + X' * X'))
      + (-208) * (x * y) ^ 10 * P.Z ^ 16 * edwardsD ^ 3 * (finv (y * y - 1 * (x * x))) ^ 2 * (finv ((1
      + 1 : F) - y * y - 1 * (x * x))) ^ 2 * (finv ((1 + 1 : F) - Y' * Y' + X' * X'))
      + (48) * (x * y) ^ 10 * P.Z ^ 16 * edwardsD ^ 4 * (finv (y * y - 1 * (x * x))) ^ 2 * (finv ((1
      + 1 : F) - y * y - 1 * (x * x))) ^ 2 * (finv ((1 + 1 : F) - Y' * Y' + X' * X'))
      + (-320) * (x * y) ^ 10 * (y * y - x * x) ^ 2 * P.Z ^ 16 * edwardsD ^ 3 * (finv (y * y - 1 * (x * x))) ^ 2 * (finv ((1
      + 1 : F) - y * y - 1 * (x * x))) ^ 2 * (finv ((1 + 1 : F) - Y' * Y' + X' * X'))
      + (80) * (x * y) ^ 10 * (y * y - x * x) ^ 2 * P.Z ^ 16 * edwardsD ^ 4 * (finv (y * y - 1 * (x * x))) ^ 2 * (finv ((1
      + 1 : F) - y * y - 1 * (x * x))) ^ 2 * (finv ((1 + 1 : F) - Y' * Y' + X' * X'))
      + (11) * (x * y) ^ 10 * (y * y - x * x) ^ 4 * P.Z ^ 16 * edwardsD ^ 5 * (finv (y * y - 1 * (x * x))) ^ 2 * (finv ((1
      + 1 : F) - y * y - 1 * (x * x))) ^ 2 * (finv ((1 + 1 : F) - Y' * Y' + X' * X'))
      + (64) * (x * y) ^ 10 * (y * y
      + x * x) * P.Z ^ 16 * edwardsD ^ 3 * (finv (y * y - 1 * (x * x))) ^ 2 * (finv ((1
      + 1 : F) - y * y - 1 * (x * x))) ^ 2 * (finv ((1 + 1 : F) - Y' * Y' + X' * X'))
      + (-64) * (x * y) ^ 10 * (y * y
      + x * x) * P.Z ^ 16 * edwardsD ^ 4 * (finv (y * y - 1 * (x * x))) ^ 2 * (finv ((1
      + 1 : F) - y * y - 1 * (x * x))) ^ 2 * (finv ((1 + 1 : F) - Y' * Y' + X' * X'))
      + (64) * (x * y) ^ 10 * (y * y
      + x * x) * (y * y - x * x) ^ 2 * P.Z ^ 16 * edwardsD ^ 3 * (finv (y * y - 1 * (x * x))) ^ 2 * (finv ((1
      + 1 : F) - y * y - 1 * (x * x))) ^ 2 * (finv ((1 + 1 : F) - Y' * Y' + X' * X'))
      + (-64) * (x * y) ^ 10 * (y * y
      + x * x) * (y * y - x * x) ^ 2 * P.Z ^ 16 * edwardsD ^ 4 * (finv (y * y - 1 * (x * x))) ^ 2 * (finv ((1
      + 1 : F) - y * y - 1 * (x * x))) ^ 2 * (finv ((1 + 1 : F) - Y' * Y' + X' * X'))
      + (-6) * (x * y) ^ 10 * (y * y
      + x * x) * (y * y - x * x) ^ 4 * P.Z ^ 16 * edwardsD ^ 5 * (finv (y * y - 1 * (x * x))) ^ 2 * (finv ((1
      + 1 : F) - y * y - 1 * (x * x))) ^ 2 * (finv ((1 + 1 : F) - Y' * Y' + X' * X'))
      + (112) * (x * y) ^ 12 * P.Z ^ 16 * edwardsD ^ 4 * (finv (y * y - 1 * (x * x))) ^ 2 * (finv ((1
      + 1 : F) - y * y - 1 * (x * x))) ^ 2 * (finv ((1 + 1 : F) - Y' * Y' + X' * X'))
      + (-48) * (x * y) ^ 12 * P.Z ^ 16 * edwardsD ^ 5 * (finv (y * y - 1 * (x * x))) ^ 2 * (finv ((1
      + 1 : F) - y * y - 1 * (x * x))) ^ 2 * (finv ((1 + 1 : F) - Y' * Y' + X' * X'))
      + (64) * (x * y) ^ 12 * (y * y - x * x) ^ 2 * P.Z ^ 16 * edwardsD ^ 4 * (finv (y * y - 1 * (x * x))) ^ 2 * (finv ((1
      + 1 : F) - y * y - 1 * (x * x))) ^ 2 * (finv ((1 + 1 : F) - Y' * Y' + X' * X'))
      + (32) * (x * y) ^ 12 * (y * y - x * x) ^ 2 * P.Z ^ 16 * edwardsD ^ 5 * (finv (y * y - 1 * (x * x))) ^ 2 * (finv ((1
      + 1 : F) - y * y - 1 * (x * x))) ^ 2 * (finv ((1 + 1 : F) - Y' * Y' + X' * X'))
      + (x * y) ^ 12 * (y * y - x * x) ^ 4 * P.Z ^ 16 * edwardsD ^ 6 * (finv (y * y - 1 * (x * x))) ^ 2 * (finv ((1
      + 1 : F) - y * y - 1 * (x * x))) ^ 2 * (finv ((1 + 1 : F) - Y' * Y' + X' * X'))
      + (-16) * (x * y) ^ 12 * (y * y
      + x * x) * P.Z ^ 16 * edwardsD ^ 4 * (finv (y * y - 1 * (x * x))) ^ 2 * (finv ((1
      + 1 : F) - y * y - 1 * (x * x))) ^ 2 * (finv ((1 + 1 : F) - Y' * Y' + X' * X'))
      + (16) * (x * y) ^ 12 * (y * y
      + x * x) * P.Z ^ 16 * edwardsD ^ 5 * (finv (y * y - 1 * (x * x))) ^ 2 * (finv ((1
      + 1 : F) - y * y - 1 * (x * x))) ^ 2 * (finv ((1 + 1 : F) - Y' * Y' + X' * X'))
      + (-1) * (x * y) ^ 12 * (y * y
      + x * x) * (y * y - x * x) ^ 4 * P.Z ^ 16 * edwardsD ^ 6 * (finv (y * y - 1 * (x * x))) ^ 2 * (finv ((1
      + 1 : F) - y * y - 1 * (x * x))) ^ 2 * (finv ((1 + 1 : F) - Y' * Y' + X' * X'))
      + (80) * (x * y) ^ 14 * P.Z ^ 16 * edwardsD ^ 5 * (finv (y * y - 1 * (x * x))) ^ 2 * (finv ((1
      + 1 : F) - y * y - 1 * (x * x))) ^ 2 * (finv ((1 + 1 : F) - Y' * Y' + X' * X'))
      + (-16) * (x * y) ^ 14 * P.Z ^ 16 * edwardsD ^ 6 * (finv (y * y - 1 * (x * x))) ^ 2 * (finv ((1
      + 1 : F) - y * y - 1 * (x * x))) ^ 2 * (finv ((1 + 1 : F) - Y' * Y' + X' * X'))
      + (-16) * (x * y) ^ 14 * (y * y - x * x) ^ 2 * P.Z ^ 16 * edwardsD ^ 6 * (finv (y * y - 1 * (x * x))) ^ 2 * (finv ((1
      + 1 : F) - y * y - 1 * (x * x))) ^ 2 * (finv ((1 + 1 : F) - Y' * Y' + X' * X'))
      + (-1) * (x * y) ^ 14 * (y * y - x * x) ^ 4 * P.Z ^ 16 * edwardsD ^ 7 * (finv (y * y - 1 * (x * x))) ^ 2 * (finv ((1
      + 1 : F) - y * y - 1 * (x * x))) ^ 2 * (finv ((1 + 1 : F) - Y' * Y' + X' * X'))
      + (-32) * (x * y) ^ 14 * (y * y
      + x * x) * P.Z ^ 16 * edwardsD ^ 5 * (finv (y * y - 1 * (x * x))) ^ 2 * (finv ((1
      + 1 : F) - y * y - 1 * (x * x))) ^ 2 * (finv ((1 + 1 : F) - Y' * Y' + X' * X'))
      + (32) * (x * y) ^ 14 * (y * y
      + x * x) * P.Z ^ 16 * edwardsD ^ 6 * (finv (y * y - 1 * (x * x))) ^ 2 * (finv ((1
      + 1 : F) - y * y - 1 * (x * x))) ^ 2 * (finv ((1 + 1 : F) - Y' * Y' + X' * X'))
      + (-80) * (x * y) ^ 16 * P.Z ^ 16 * edwardsD ^ 6 * (finv (y * y - 1 * (x * x))) ^ 2 * (finv ((1
      + 1 : F) - y * y - 1 * (x * x))) ^ 2 * (finv ((1 + 1 : F) - Y' * Y' + X' * X'))
      + (16) * (x * y) ^ 16 * P.Z ^ 16 * edwardsD ^ 7 * (finv (y * y - 1 * (x * x))) ^ 2 * (finv ((1
      + 1 : F) - y * y - 1 * (x * x))) ^ 2 * (finv ((1 + 1 : F) - Y' * Y' + X' * X'))
      + (16) * (x * y) ^ 16 * (y * y
      + x * x) * P.Z ^ 16 * edwardsD ^ 6 * (finv (y * y - 1 * (x * x))) ^ 2 * (finv ((1
      + 1 : F) - y * y - 1 * (x * x))) ^ 2 * (finv ((1 + 1 : F) - Y' * Y' + X' * X'))
      + (-16) * (x * y) ^ 16 * (y * y
      + x * x) * P.Z ^ 16 * edwardsD ^ 7 * (finv (y * y - 1 * (x * x))) ^ 2 * (finv ((1
      + 1 : F) - y * y - 1 * (x * x))) ^ 2 * (finv ((1 + 1 : F) - Y' * Y' + X' * X'))
      + (16) * (x * y) ^ 18 * P.Z ^ 16 * edwardsD ^ 7 * (finv (y * y - 1 * (x * x))) ^ 2 * (finv ((1
      + 1 : F) - y * y - 1 * (x * x))) ^ 2 * (finv ((1 + 1 : F) - Y' * Y' + X' * X'))) * haff
      + ((2) * (y * y - x * x) ^ 2 * P.Z ^ 16 * (finv ((1 + 1 : F) - Y' * Y' + X' * X'))
      + (2) * (y * y - x * x) ^ 3 * P.Z ^ 16 * (finv (y * y - 1 * (x * x))) * (finv ((1
      + 1 : F) - Y' * Y' + X' * X')) + (-1) * (y * y + x * x) ^ 2 * P.Z ^ 16 * (finv ((1
      + 1 : F) - y * y - 1 * (x * x))) ^ 2 * (finv ((1 + 1 : F) - Y' * Y' + X' * X'))
      + (-1) * (y * y
      + x * x) ^ 2 * (y * y - x * x) * P.Z ^ 16 * (finv (y * y - 1 * (x * x))) * (finv ((1
      + 1 : F) - y * y - 1 * (x * x))) ^ 2 * (finv ((1 + 1 : F) - Y' * Y' + X' * X'))
      + (-1) * (y * y + x * x) ^ 2 * (y * y - x * x) ^ 2 * P.Z ^ 16 * (finv ((1
      + 1 : F) - y * y - 1 * (x * x))) ^ 2 * (finv ((1 + 1 : F) - Y' * Y' + X' * X'))
      + (-1) * (y * y
      + x * x) ^ 2 * (y * y - x * x) ^ 3 * P.Z ^ 16 * (finv (y * y - 1 * (x * x))) * (finv ((1
      + 1 : F) - y * y - 1 * (x * x))) ^ 2 * (finv ((1 + 1 : F) - Y' * Y' + X' * X'))
      + (-8) * (x * y) ^ 2 * P.Z ^ 16 * (finv ((1 + 1 : F) - Y' * Y' + X' * X'))
      + (-8) * (x * y) ^ 2 * (y * y - x * x) * P.Z ^ 16 * (finv (y * y - 1 * (x * x))) * (finv ((1
      + 1 : F) - Y' * Y' + X' * X'))
      + (4) * (x * y) ^ 2 * (y * y - x * x) ^ 2 * P.Z ^ 16 * edwardsD * (finv ((1
      + 1 : F) - Y' * Y' + X' * X'))
      + (4) * (x * y) ^ 2 * (y * y - x * x) ^ 3 * P.Z ^ 16 * edwardsD * (finv (y * y - 1 * (x * x))) * (finv ((1
      + 1 : F) - Y' * Y' + X' * X'))
      + (8) * (x * y) ^ 2 * (y * y - x * x) ^ 4 * P.Z ^ 16 * edwardsD * (finv ((1
      + 1 : F) - Y' * Y' + X' * X'))
      + (8) * (x * y) ^ 2 * (y * y - x * x) ^ 5 * P.Z ^ 16 * edwardsD * (finv (y * y - 1 * (x * x))) * (finv ((1
      + 1 : F) - Y' * Y' + X' * X')) + (4) * (x * y) ^ 2 * (y * y
      + x * x) ^ 2 * P.Z ^ 16 * (finv ((1 + 1 : F) - y * y - 1 * (x * x))) ^ 2 * (finv ((1
      + 1 : F) - Y' * Y' + X' * X')) + (4) * (x * y) ^ 2 * (y * y
      + x * x) ^ 2 * (y * y - x * x) * P.Z ^ 16 * (finv (y * y - 1 * (x * x))) * (finv ((1
      + 1 : F) - y * y - 1 * (x * x))) ^ 2 * (finv ((1 + 1 : F) - Y' * Y' + X' * X'))
      + (-2) * (x * y) ^ 2 * (y * y
      + x * x) ^ 2 * (y * y - x * x) ^ 2 * P.Z ^ 16 * edwardsD * (finv ((1
      + 1 : F) - y * y - 1 * (x * x))) ^ 2 * (finv ((1 + 1 : F) - Y' * Y' + X' * X'))
      + (-2) * (x * y) ^ 2 * (y * y
      + x * x) ^ 2 * (y * y - x * x) ^ 3 * P.Z ^ 16 * edwardsD * (finv (y * y - 1 * (x * x))) * (finv ((1
      + 1 : F) - y * y - 1 * (x * x))) ^ 2 * (finv ((1 + 1 : F) - Y' * Y' + X' * X'))
      + (-4) * (x * y) ^ 2 * (y * y
      + x * x) ^ 2 * (y * y - x * x) ^ 4 * P.Z ^ 16 * edwardsD * (finv ((1
      + 1 : F) - y * y - 1 * (x * x))) ^ 2 * (finv ((1 + 1 : F) - Y' * Y' + X' * X'))
      + (-4) * (x * y) ^ 2 * (y * y
      + x * x) ^ 2 * (y * y - x * x) ^ 5 * P.Z ^ 16 * edwardsD * (finv (y * y - 1 * (x * x))) * (finv ((1
      + 1 : F) - y * y - 1 * (x * x))) ^ 2 * (finv ((1 + 1 : F) - Y' * Y' + X' * X'))
      + (16) * (x * y) ^ 4 * P.Z ^ 16 * edwardsD * (finv ((1 + 1 : F) - Y' * Y' + X' * X'))
      + (16) * (x * y) ^ 4 * (y * y - x * x) * P.Z ^ 16 * edwardsD * (finv (y * y - 1 * (x * x))) * (finv ((1
      + 1 : F) - Y' * Y' + X' * X'))
      + (-32) * (x * y) ^ 4 * (y * y - x * x) ^ 2 * P.Z ^ 16 * edwardsD * (finv ((1
      + 1 : F) - Y' * Y' + X' * X'))
      + (-2) * (x * y) ^ 4 * (y * y - x * x) ^ 2 * P.Z ^ 16 * edwardsD ^ 2 * (finv ((1
      + 1 : F) - Y' * Y' + X' * X'))
      + (-32) * (x * y) ^ 4 * (y * y - x * x) ^ 3 * P.Z ^ 16 * edwardsD * (finv (y * y - 1 * (x * x))) * (finv ((1
      + 1 : F) - Y' * Y' + X' * X'))
      + (-2) * (x * y) ^ 4 * (y * y - x * x) ^ 3 * P.Z ^ 16 * edwardsD ^ 2 * (finv (y * y - 1 * (x * x))) * (finv ((1
      + 1 : F) - Y' * Y' + X' * X'))
      + (16) * (x * y) ^ 4 * (y * y - x * x) ^ 4 * P.Z ^ 16 * edwardsD ^ 2 * (finv ((1
      + 1 : F) - Y' * Y' + X' * X'))
      + (16) * (x * y) ^ 4 * (y * y - x * x) ^ 5 * P.Z ^ 16 * edwardsD ^ 2 * (finv (y * y - 1 * (x * x))) * (finv ((1
      + 1 : F) - Y' * Y' + X' * X')) + (-8) * (x * y) ^ 4 * (y * y
      + x * x) ^ 2 * P.Z ^ 16 * edwardsD * (finv ((1
      + 1 : F) - y * y - 1 * (x * x))) ^ 2 * (finv ((1 + 1 : F) - Y' * Y' + X' * X'))
      + (4) * (x * y) ^ 4 * (y * y + x * x) ^ 2 * P.Z ^ 16 * edwardsD ^ 2 * (finv ((1
      + 1 : F) - y * y - 1 * (x * x))) ^ 2 * (finv ((1 + 1 : F) - Y' * Y' + X' * X'))
      + (-8) * (x * y) ^ 4 * (y * y
      + x * x) ^ 2 * (y * y - x * x) * P.Z ^ 16 * edwardsD * (finv (y * y - 1 * (x * x))) * (finv ((1
      + 1 : F) - y * y - 1 * (x * x))) ^ 2 * (finv ((1 + 1 : F) - Y' * Y' + X' * X'))
      + (4) * (x * y) ^ 4 * (y * y
      + x * x) ^ 2 * (y * y - x * x) * P.Z ^ 16 * edwardsD ^ 2 * (finv (y * y - 1 * (x * x))) * (finv ((1
      + 1 : F) - y * y - 1 * (x * x))) ^ 2 * (finv ((1 + 1 : F) - Y' * Y' + X' * X'))
      + (16) * (x * y) ^ 4 * (y * y
      + x * x) ^ 2 * (y * y - x * x) ^ 2 * P.Z ^ 16 * edwardsD * (finv ((1
      + 1 : F) - y * y - 1 * (x * x))) ^ 2 * (finv ((1 + 1 : F) - Y' * Y' + X' * X'))
      + (x * y) ^ 4 * (y * y
      + x * x) ^ 2 * (y * y - x * x) ^ 2 * P.Z ^ 16 * edwardsD ^ 2 * (finv ((1
      + 1 : F) - y * y - 1 * (x * x))) ^ 2 * (finv ((1 + 1 : F) - Y' * Y' + X' * X'))
      + (16) * (x * y) ^ 4 * (y * y
      + x * x) ^ 2 * (y * y - x * x) ^ 3 * P.Z ^ 16 * edwardsD * (finv (y * y - 1 * (x * x))) * (finv ((1
      + 1 : F) - y * y - 1 * (x * x))) ^ 2 * (finv ((1 + 1 : F) - Y' * Y' + X' * X'))
      + (x * y) ^ 4 * (y * y
      + x * x) ^ 2 * (y * y - x * x) ^ 3 * P.Z ^ 16 * edwardsD ^ 2 * (finv (y * y - 1 * (x * x))) * (finv ((1
      + 1 : F) - y * y - 1 * (x * x))) ^ 2 * (finv ((1 + 1 : F) - Y' * Y' + X' * X'))
      + (8) * (x * y) ^ 4 * (y * y
      + x * x) ^ 2 * (y * y - x * x) ^ 4 * P.Z ^ 16 * edwardsD ^ 2 * (finv ((1
      + 1 : F) - y * y - 1 * (x * x))) ^ 2 * (finv ((1 + 1 : F) - Y' * Y' + X' * X'))
      + (8) * (x * y) ^ 4 * (y * y
      + x * x) ^ 2 * (y * y - x * x) ^ 5 * P.Z ^ 16 * edwardsD ^ 2 * (finv (y * y - 1 * (x * x))) * (finv ((1
      + 1 : F) - y * y - 1 * (x * x))) ^ 2 * (finv ((1 + 1 : F) - Y' * Y' + X' * X'))
      + (8) * (x * y) ^ 6 * P.Z ^ 16 * edwardsD ^ 2 * (finv ((1 + 1 : F) - Y' * Y' + X' * X'))
      + (8) * (x * y) ^ 6 * (y * y - x * x) * P.Z ^ 16 * edwardsD ^ 2 * (finv (y * y - 1 * (x * x))) * (finv ((1
      + 1 : F) - Y' * Y' + X' * X'))
      + (64) * (x * y) ^ 6 * (y * y - x * x) ^ 2 * P.Z ^ 16 * edwardsD ^ 2 * (finv ((1
      + 1 : F) - Y' * Y' + X' * X'))
      + (-8) * (x * y) ^ 6 * (y * y - x * x) ^ 2 * P.Z ^ 16 * edwardsD ^ 3 * (finv ((1
      + 1 : F) - Y' * Y' + X' * X'))
      + (64) * (x * y) ^ 6 * (y * y - x * x) ^ 3 * P.Z ^ 16 * edwardsD ^ 2 * (finv (y * y - 1 * (x * x))) * (finv ((1
      + 1 : F) - Y' * Y' + X' * X'))
      + (-8) * (x * y) ^ 6 * (y * y - x * x) ^ 3 * P.Z ^ 16 * edwardsD ^ 3 * (finv (y * y - 1 * (x * x))) * (finv ((1
      + 1 : F) - Y' * Y' + X' * X'))
      + (8) * (x * y) ^ 6 * (y * y - x * x) ^ 4 * P.Z ^ 16 * edwardsD ^ 3 * (finv ((1
      + 1 : F) - Y' * Y' + X' * X'))
      + (8) * (x * y) ^ 6 * (y * y - x * x) ^ 5 * P.Z ^ 16 * edwardsD ^ 3 * (finv (y * y - 1 * (x * x))) * (finv ((1
      + 1 : F) - Y' * Y' + X' * X')) + (-4) * (x * y) ^ 6 * (y * y
      + x * x) ^ 2 * P.Z ^ 16 * edwardsD ^ 2 * (finv ((1
      + 1 : F) - y * y - 1 * (x * x))) ^ 2 * (finv ((1 + 1 : F) - Y' * Y' + X' * X'))
      + (-4) * (x * y) ^ 6 * (y * y
      + x * x) ^ 2 * (y * y - x * x) * P.Z ^ 16 * edwardsD ^ 2 * (finv (y * y - 1 * (x * x))) * (finv ((1
      + 1 : F) - y * y - 1 * (x * x))) ^ 2 * (finv ((1 + 1 : F) - Y' * Y' + X' * X'))
      + (-32) * (x * y) ^ 6 * (y * y
      + x * x) ^ 2 * (y * y - x * x) ^ 2 * P.Z ^ 16 * edwardsD ^ 2 * (finv ((1
      + 1 : F) - y * y - 1 * (x * x))) ^ 2 * (finv ((1 + 1 : F) - Y' * Y' + X' * X'))
      + (4) * (x * y) ^ 6 * (y * y
      + x * x) ^ 2 * (y * y - x * x) ^ 2 * P.Z ^ 16 * edwardsD ^ 3 * (finv ((1
      + 1 : F) - y * y - 1 * (x * x))) ^ 2 * (finv ((1 + 1 : F) - Y' * Y' + X' * X'))
      + (-32) * (x * y) ^ 6 * (y * y
      + x * x) ^ 2 * (y * y - x * x) ^ 3 * P.Z ^ 16 * edwardsD ^ 2 * (finv (y * y - 1 * (x * x))) * (finv ((1
      + 1 : F) - y * y - 1 * (x * x))) ^ 2 * (finv ((1 + 1 : F) - Y' * Y' + X' * X'))
      + (4) * (x * y) ^ 6 * (y * y
      + x * x) ^ 2 * (y * y - x * x) ^ 3 * P.Z ^ 16 * edwardsD ^ 3 * (finv (y * y - 1 * (x * x))) * (finv ((1
      + 1 : F) - y * y - 1 * (x * x))) ^ 2 * (finv ((1 + 1 : F) - Y' * Y' + X' * X'))
      + (-4) * (x * y) ^ 6 * (y * y
      + x * x) ^ 2 * (y * y - x * x) ^ 4 * P.Z ^ 16 * edwardsD ^ 3 * (finv ((1
      + 1 : F) - y * y - 1 * (x * x))) ^ 2 * (finv ((1 + 1 : F) - Y' * Y' + X' * X'))
      + (-4) * (x * y) ^ 6 * (y * y
      + x * x) ^ 2 * (y * y - x * x) ^ 5 * P.Z ^ 16 * edwardsD ^ 3 * (finv (y * y - 1 * (x * x))) * (finv ((1
      + 1 : F) - y * y - 1 * (x * x))) ^ 2 * (finv ((1 + 1 : F) - Y' * Y' + X' * X'))
      + (-32) * (x * y) ^ 8 * P.Z ^ 16 * edwardsD ^ 3 * (finv ((1 + 1 : F) - Y' * Y'
      + X' * X'))
      + (-32) * (x * y) ^ 8 * (y * y - x * x) * P.Z ^ 16 * edwardsD ^ 3 * (finv (y * y - 1 * (x * x))) * (finv ((1
      + 1 : F) - Y' * Y' + X' * X'))
      + (-32) * (x * y) ^ 8 * (y * y - x * x) ^ 2 * P.Z ^ 16 * edwardsD ^ 3 * (finv ((1
      + 1 : F) - Y' * Y' + X' * X'))
      + (-2) * (x * y) ^ 8 * (y * y - x * x) ^ 2 * P.Z ^ 16 * edwardsD ^ 4 * (finv ((1
      + 1 : F) - Y' * Y' + X' * X'))
      + (-32) * (x * y) ^ 8 * (y * y - x * x) ^ 3 * P.Z ^ 16 * edwardsD ^ 3 * (finv (y * y - 1 * (x * x))) * (finv ((1
      + 1 : F) - Y' * Y' + X' * X'))
      + (-2) * (x * y) ^ 8 * (y * y - x * x) ^ 3 * P.Z ^ 16 * edwardsD ^ 4 * (finv (y * y - 1 * (x * x))) * (finv ((1
      + 1 : F) - Y' * Y' + X' * X')) + (16) * (x * y) ^ 8 * (y * y
      + x * x) ^ 2 * P.Z ^ 16 * edwardsD ^ 3 * (finv ((1
      + 1 : F) - y * y - 1 * (x * x))) ^ 2 * (finv ((1 + 1 : F) - Y' * Y' + X' * X'))
      + (-6) * (x * y) ^ 8 * (y * y + x * x) ^ 2 * P.Z ^ 16 * edwardsD ^ 4 * (finv ((1
      + 1 : F) - y * y - 1 * (x * x))) ^ 2 * (finv ((1 + 1 : F) - Y' * Y' + X' * X'))
      + (16) * (x * y) ^ 8 * (y * y
      + x * x) ^ 2 * (y * y - x * x) * P.Z ^ 16 * edwardsD ^ 3 * (finv (y * y - 1 * (x * x))) * (finv ((1
      + 1 : F) - y * y - 1 * (x * x))) ^ 2 * (finv ((1 + 1 : F) - Y' * Y' + X' * X'))
      + (-6) * (x * y) ^ 8 * (y * y
      + x * x) ^ 2 * (y * y - x * x) * P.Z ^ 16 * edwardsD ^ 4 * (finv (y * y - 1 * (x * x))) * (finv ((1
      + 1 : F) - y * y - 1 * (x * x))) ^ 2 * (finv ((1 + 1 : F) - Y' * Y' + X' * X'))
      + (16) * (x * y) ^ 8 * (y * y
      + x * x) ^ 2 * (y * y - x * x) ^ 2 * P.Z ^ 16 * edwardsD ^ 3 * (finv ((1
      + 1 : F) - y * y - 1 * (x * x))) ^ 2 * (finv ((1 + 1 : F) - Y' * Y' + X' * X'))
      + (x * y) ^ 8 * (y * y
      + x * x) ^ 2 * (y * y - x * x) ^ 2 * P.Z ^ 16 * edwardsD ^ 4 * (finv ((1
      + 1 : F) - y * y - 1 * (x * x))) ^ 2 * (finv ((1 + 1 : F) - Y' * Y' + X' * X'))
      + (16) * (x * y) ^ 8 * (y * y
      + x * x) ^ 2 * (y * y - x * x) ^ 3 * P.Z ^ 16 * edwardsD ^ 3 * (finv (y * y - 1 * (x * x))) * (finv ((1
      + 1 : F) - y * y - 1 * (x * x))) ^ 2 * (finv ((1 + 1 : F) - Y' * Y' + X' * X'))
      + (x * y) ^ 8 * (y * y
      + x * x) ^ 2 * (y * y - x * x) ^ 3 * P.Z ^ 16 * edwardsD ^ 4 * (finv (y * y - 1 * (x * x))) * (finv ((1
      + 1 : F) - y * y - 1 * (x * x))) ^ 2 * (finv ((1 + 1 : F) - Y' * Y' + X' * X'))
      + (8) * (x * y) ^ 10 * P.Z ^ 16 * edwardsD ^ 4 * (finv ((1 + 1 : F) - Y' * Y'
      + X' * X'))
      + (8) * (x * y) ^ 10 * (y * y - x * x) * P.Z ^ 16 * edwardsD ^ 4 * (finv (y * y - 1 * (x * x))) * (finv ((1
      + 1 : F) - Y' * Y' + X' * X'))
      + (4) * (x * y) ^ 10 * (y * y - x * x) ^ 2 * P.Z ^ 16 * edwardsD ^ 5 * (finv ((1
      + 1 : F) - Y' * Y' + X' * X'))
      + (4) * (x * y) ^ 10 * (y * y - x * x) ^ 3 * P.Z ^ 16 * edwardsD ^ 5 * (finv (y * y - 1 * (x * x))) * (finv ((1
      + 1 : F) - Y' * Y' + X' * X')) + (-4) * (x * y) ^ 10 * (y * y
      + x * x) ^ 2 * P.Z ^ 16 * edwardsD ^ 4 * (finv ((1
      + 1 : F) - y * y - 1 * (x * x))) ^ 2 * (finv ((1 + 1 : F) - Y' * Y' + X' * X'))
      + (-4) * (x * y) ^ 10 * (y * y
      + x * x) ^ 2 * (y * y - x * x) * P.Z ^ 16 * edwardsD ^ 4 * (finv (y * y - 1 * (x * x))) * (finv ((1
      + 1 : F) - y * y - 1 * (x * x))) ^ 2 * (finv ((1 + 1 : F) - Y' * Y' + X' * X'))
      + (-2) * (x * y) ^ 10 * (y * y
      + x * x) ^ 2 * (y * y - x * x) ^ 2 * P.Z ^ 16 * edwardsD ^ 5 * (finv ((1
      + 1 : F) - y * y - 1 * (x * x))) ^ 2 * (finv ((1 + 1 : F) - Y' * Y' + X' * X'))
      + (-2) * (x * y) ^ 10 * (y * y
      + x * x) ^ 2 * (y * y - x * x) ^ 3 * P.Z ^ 16 * edwardsD ^ 5 * (finv (y * y - 1 * (x * x))) * (finv ((1
      + 1 : F) - y * y - 1 * (x * x))) ^ 2 * (finv ((1 + 1 : F) - Y' * Y' + X' * X'))
      + (16) * (x * y) ^ 12 * P.Z ^ 16 * edwardsD ^ 5 * (finv ((1 + 1 : F) - Y' * Y'
      + X' * X'))
      + (16) * (x * y) ^ 12 * (y * y - x * x) * P.Z ^ 16 * edwardsD ^ 5 * (finv (y * y - 1 * (x * x))) * (finv ((1
      + 1 : F) - Y' * Y' + X' * X'))
      + (2) * (x * y) ^ 12 * (y * y - x * x) ^ 2 * P.Z ^ 16 * edwardsD ^ 6 * (finv ((1
      + 1 : F) - Y' * Y' + X' * X'))
      + (2) * (x * y) ^ 12 * (y * y - x * x) ^ 3 * P.Z ^ 16 * edwardsD ^ 6 * (finv (y * y - 1 * (x * x))) * (finv ((1
      + 1 : F) - Y' * Y' + X' * X')) + (-8) * (x * y) ^ 12 * (y * y
      + x * x) ^ 2 * P.Z ^ 16 * edwardsD ^ 5 * (finv ((1
      + 1 : F) - y * y - 1 * (x * x))) ^ 2 * (finv ((1 + 1 : F) - Y' * Y' + X' * X'))
      + (4) * (x * y) ^ 12 * (y * y + x * x) ^ 2 * P.Z ^ 16 * edwardsD ^ 6 * (finv ((1
      + 1 : F) - y * y - 1 * (x * x))) ^ 2 * (finv ((1 + 1 : F) - Y' * Y' + X' * X'))
      + (-8) * (x * y) ^ 12 * (y * y
      + x * x) ^ 2 * (y * y - x * x) * P.Z ^ 16 * edwardsD ^ 5 * (finv (y * y - 1 * (x * x))) * (finv ((1
      + 1 : F) - y * y - 1 * (x * x))) ^ 2 * (finv ((1 + 1 : F) - Y' * Y' + X' * X'))
      + (4) * (x * y) ^ 12 * (y * y
      + x * x) ^ 2 * (y * y - x * x) * P.Z ^ 16 * edwardsD ^ 6 * (finv (y * y - 1 * (x * x))) * (finv ((1
      + 1 : F) - y * y - 1 * (x * x))) ^ 2 * (finv ((1 + 1 : F) - Y' * Y' + X' * X'))
      + (-1) * (x * y) ^ 12 * (y * y
      + x * x) ^ 2 * (y * y - x * x) ^ 2 * P.Z ^ 16 * edwardsD ^ 6 * (finv ((1
      + 1 : F) - y * y - 1 * (x * x))) ^ 2 * (finv ((1 + 1 : F) - Y' * Y' + X' * X'))
      + (-1) * (x * y) ^ 12 * (y * y
      + x * x) ^ 2 * (y * y - x * x) ^ 3 * P.Z ^ 16 * edwardsD ^ 6 * (finv (y * y - 1 * (x * x))) * (finv ((1
      + 1 : F) - y * y - 1 * (x * x))) ^ 2 * (finv ((1 + 1 : F) - Y' * Y' + X' * X'))
      + (-8) * (x * y) ^ 14 * P.Z ^ 16 * edwardsD ^ 6 * (finv ((1 + 1 : F) - Y' * Y'
      + X' * X'))
      + (-8) * (x * y) ^ 14 * (y * y - x * x) * P.Z ^ 16 * edwardsD ^ 6 * (finv (y * y - 1 * (x * x))) * (finv ((1
      + 1 : F) - Y' * Y' + X' * X')) + (4) * (x * y) ^ 14 * (y * y
      + x * x) ^ 2 * P.Z ^ 16 * edwardsD ^ 6 * (finv ((1
      + 1 : F) - y * y - 1 * (x * x))) ^ 2 * (finv ((1 + 1 : F) - Y' * Y' + X' * X'))
      + (4) * (x * y) ^ 14 * (y * y
      + x * x) ^ 2 * (y * y - x * x) * P.Z ^ 16 * edwardsD ^ 6 * (finv (y * y - 1 * (x * x))) * (finv ((1
      + 1 : F) - y * y - 1 * (x * x))) ^ 2 * (finv ((1 + 1 : F) - Y' * Y' + X' * X'))
      + (-1) * (x * y) ^ 16 * (y * y + x * x) ^ 2 * P.Z ^ 16 * edwardsD ^ 8 * (finv ((1
      + 1 : F) - y * y - 1 * (x * x))) ^ 2 * (finv ((1 + 1 : F) - Y' * Y' + X' * X'))
      + (-1) * (x * y) ^ 16 * (y * y
      + x * x) ^ 2 * (y * y - x * x) * P.Z ^ 16 * edwardsD ^ 8 * (finv (y * y - 1 * (x * x))) * (finv ((1
      + 1 : F) - y * y - 1 * (x * x))) ^ 2 * (finv ((1 + 1 : F) - Y' * Y' + X' * X'))) * hdx
      + ((2) * (y * y - x * x) ^ 4 * P.Z ^ 16 * (finv (y * y - 1 * (x * x))) ^ 2 * (finv ((1
      + 1 : F) - Y' * Y' + X' * X'))
      + (4) * (y * y - x * x) ^ 4 * P.Z ^ 16 * (finv (y * y - 1 * (x * x))) ^ 2 * (finv ((1
      + 1 : F) - y * y - 1 * (x * x))) * (finv ((1 + 1 : F) - Y' * Y' + X' * X'))
      + (-2) * (y * y
      + x * x) * (y * y - x * x) ^ 4 * P.Z ^ 16 * (finv (y * y - 1 * (x * x))) ^ 2 * (finv ((1
      + 1 : F) - y * y - 1 * (x * x))) * (finv ((1 + 1 : F) - Y' * Y' + X' * X'))
      + (4) * (x * y) ^ 2 * P.Z ^ 16 * (finv (y * y - 1 * (x * x))) ^ 2 * (finv ((1
      + 1 : F) - Y' * Y' + X' * X'))
      + (8) * (x * y) ^ 2 * P.Z ^ 16 * (finv (y * y - 1 * (x * x))) ^ 2 * (finv ((1
      + 1 : F) - y * y - 1 * (x * x))) * (finv ((1 + 1 : F) - Y' * Y' + X' * X'))
      + (-4) * (x * y) ^ 2 * (y * y - x * x) ^ 2 * P.Z ^ 16 * (finv (y * y - 1 * (x * x))) ^ 2 * (finv ((1
      + 1 : F) - Y' * Y' + X' * X'))
      + (-8) * (x * y) ^ 2 * (y * y - x * x) ^ 2 * P.Z ^ 16 * (finv (y * y - 1 * (x * x))) ^ 2 * (finv ((1
      + 1 : F) - y * y - 1 * (x * x))) * (finv ((1 + 1 : F) - Y' * Y' + X' * X'))
      + (4) * (x * y) ^ 2 * (y * y - x * x) ^ 4 * P.Z ^ 16 * edwardsD * (finv (y * y - 1 * (x * x))) ^ 2 * (finv ((1
      + 1 : F) - Y' * Y' + X' * X'))
      + (8) * (x * y) ^ 2 * (y * y - x * x) ^ 4 * P.Z ^ 16 * edwardsD * (finv (y * y - 1 * (x * x))) ^ 2 * (finv ((1
      + 1 : F) - y * y - 1 * (x * x))) * (finv ((1 + 1 : F) - Y' * Y' + X' * X'))
      + (8) * (x * y) ^ 2 * (y * y - x * x) ^ 6 * P.Z ^ 16 * edwardsD * (finv (y * y - 1 * (x * x))) ^ 2 * (finv ((1
      + 1 : F) - Y' * Y' + X' * X'))
      + (16) * (x * y) ^ 2 * (y * y - x * x) ^ 6 * P.Z ^ 16 * edwardsD * (finv (y * y - 1 * (x * x))) ^ 2 * (finv ((1
      + 1 : F) - y * y - 1 * (x * x))) * (finv ((1 + 1 : F) - Y' * Y' + X' * X'))
      + (-4) * (x * y) ^ 2 * (y * y
      + x * x) * P.Z ^ 16 * (finv (y * y - 1 * (x * x))) ^ 2 * (finv ((1
      + 1 : F) - y * y - 1 * (x * x))) * (finv ((1 + 1 : F) - Y' * Y' + X' * X'))
      + (4) * (x * y) ^ 2 * (y * y
      + x * x) * (y * y - x * x) ^ 2 * P.Z ^ 16 * (finv (y * y - 1 * (x * x))) ^ 2 * (finv ((1
      + 1 : F) - y * y - 1 * (x * x))) * (finv ((1 + 1 : F) - Y' * Y' + X' * X'))
      + (-4) * (x * y) ^ 2 * (y * y
      + x * x) * (y * y - x * x) ^ 4 * P.Z ^ 16 * edwardsD * (finv (y * y - 1 * (x * x))) ^ 2 * (finv ((1
      + 1 : F) - y * y - 1 * (x * x))) * (finv ((1 + 1 : F) - Y' * Y' + X' * X'))
      + (-8) * (x * y) ^ 2 * (y * y
      + x * x) * (y * y - x * x) ^ 6 * P.Z ^ 16 * edwardsD * (finv (y * y - 1 * (x * x))) ^ 2 * (finv ((1
      + 1 : F) - y * y - 1 * (x * x))) * (finv ((1 + 1 : F) - Y' * Y' + X' * X'))
      + (-16) * (x * y) ^ 4 * P.Z ^ 16 * (finv (y * y - 1 * (x * x))) ^ 2 * (finv ((1
      + 1 : F) - Y' * Y' + X' * X'))
      + (-32) * (x * y) ^ 4 * P.Z ^ 16 * (finv (y * y - 1 * (x * x))) ^ 2 * (finv ((1
      + 1 : F) - y * y - 1 * (x * x))) * (finv ((1 + 1 : F) - Y' * Y' + X' * X'))
      + (24) * (x * y) ^ 4 * (y * y - x * x) ^ 2 * P.Z ^ 16 * edwardsD * (finv (y * y - 1 * (x * x))) ^ 2 * (finv ((1
      + 1 : F) - Y' * Y' + X' * X'))
      + (48) * (x * y) ^ 4 * (y * y - x * x) ^ 2 * P.Z ^ 16 * edwardsD * (finv (y * y - 1 * (x * x))) ^ 2 * (finv ((1
      + 1 : F) - y * y - 1 * (x * x))) * (finv ((1 + 1 : F) - Y' * Y' + X' * X'))
      + (-16) * (x * y) ^ 4 * (y * y - x * x) ^ 4 * P.Z ^ 16 * edwardsD * (finv (y * y - 1 * (x * x))) ^ 2 * (finv ((1
      + 1 : F) - Y' * Y' + X' * X'))
      + (-32) * (x * y) ^ 4 * (y * y - x * x) ^ 4 * P.Z ^ 16 * edwardsD * (finv (y * y - 1 * (x * x))) ^ 2 * (finv ((1
      + 1 : F) - y * y - 1 * (x * x))) * (finv ((1 + 1 : F) - Y' * Y' + X' * X'))
      + (-2) * (x * y) ^ 4 * (y * y - x * x) ^ 4 * P.Z ^ 16 * edwardsD ^ 2 * (finv (y * y - 1 * (x * x))) ^ 2 * (finv ((1
      + 1 : F) - Y' * Y' + X' * X'))
      + (-4) * (x * y) ^ 4 * (y * y - x * x) ^ 4 * P.Z ^ 16 * edwardsD ^ 2 * (finv (y * y - 1 * (x * x))) ^ 2 * (finv ((1
      + 1 : F) - y * y - 1 * (x * x))) * (finv ((1 + 1 : F) - Y' * Y' + X' * X'))
      + (16) * (x * y) ^ 4 * (y * y - x * x) ^ 6 * P.Z ^ 16 * edwardsD ^ 2 * (finv (y * y - 1 * (x * x))) ^ 2 * (finv ((1
      + 1 : F) - Y' * Y' + X' * X'))
      + (32) * (x * y) ^ 4 * (y * y - x * x) ^ 6 * P.Z ^ 16 * edwardsD ^ 2 * (finv (y * y - 1 * (x * x))) ^ 2 * (finv ((1
      + 1 : F) - y * y - 1 * (x * x))) * (finv ((1 + 1 : F) - Y' * Y' + X' * X'))
      + (16) * (x * y) ^ 4 * (y * y
      + x * x) * P.Z ^ 16 * (finv (y * y - 1 * (x * x))) ^ 2 * (finv ((1
      + 1 : F) - y * y - 1 * (x * x))) * (finv ((1 + 1 : F) - Y' * Y' + X' * X'))
      + (-24) * (x * y) ^ 4 * (y * y
      + x * x) * (y * y - x * x) ^ 2 * P.Z ^ 16 * edwardsD * (finv (y * y - 1 * (x * x))) ^ 2 * (finv ((1
      + 1 : F) - y * y - 1 * (x * x))) * (finv ((1 + 1 : F) - Y' * Y' + X' * X'))
      + (16) * (x * y) ^ 4 * (y * y
      + x * x) * (y * y - x * x) ^ 4 * P.Z ^ 16 * edwardsD * (finv (y * y - 1 * (x * x))) ^ 2 * (finv ((1
      + 1 : F) - y * y - 1 * (x * x))) * (finv ((1 + 1 : F) - Y' * Y' + X' * X'))
      + (2) * (x * y) ^ 4 * (y * y
      + x * x) * (y * y - x * x) ^ 4 * P.Z ^ 16 * edwardsD ^ 2 * (finv (y * y - 1 * (x * x))) ^ 2 * (finv ((1
      + 1 : F) - y * y - 1 * (x * x))) * (finv ((1 + 1 : F) - Y' * Y' + X' * X'))
      + (-16) * (x * y) ^ 4 * (y * y
      + x * x) * (y * y - x * x) ^ 6 * P.Z ^ 16 * edwardsD ^ 2 * (finv (y * y - 1 * (x * x))) ^ 2 * (finv ((1
      + 1 : F) - y * y - 1 * (x * x))) * (finv ((1 + 1 : F) - Y' * Y' + X' * X'))
      + (32) * (x * y) ^ 6 * P.Z ^ 16 * edwardsD * (finv (y * y - 1 * (x * x))) ^ 2 * (finv ((1
      + 1 : F) - Y' * Y' + X' * X'))
      + (64) * (x * y) ^ 6 * P.Z ^ 16 * edwardsD * (finv (y * y - 1 * (x * x))) ^ 2 * (finv ((1
      + 1 : F) - y * y - 1 * (x * x))) * (finv ((1 + 1 : F) - Y' * Y' + X' * X'))
      + (-16) * (x * y) ^ 6 * P.Z ^ 16 * edwardsD ^ 2 * (finv (y * y - 1 * (x * x))) ^ 2 * (finv ((1
      + 1 : F) - Y' * Y' + X' * X'))
      + (-32) * (x * y) ^ 6 * P.Z ^ 16 * edwardsD ^ 2 * (finv (y * y - 1 * (x * x))) ^ 2 * (finv ((1
      + 1 : F) - y * y - 1 * (x * x))) * (finv ((1 + 1 : F) - Y' * Y' + X' * X'))
      + (-64) * (x * y) ^ 6 * (y * y - x * x) ^ 2 * P.Z ^ 16 * edwardsD * (finv (y * y - 1 * (x * x))) ^ 2 * (finv ((1
      + 1 : F) - Y' * Y' + X' * X'))
      + (-128) * (x * y) ^ 6 * (y * y - x * x) ^ 2 * P.Z ^ 16 * edwardsD * (finv (y * y - 1 * (x * x))) ^ 2 * (finv ((1
      + 1 : F) - y * y - 1 * (x * x))) * (finv ((1 + 1 : F) - Y' * Y' + X' * X'))
      + (4) * (x * y) ^ 6 * (y * y - x * x) ^ 2 * P.Z ^ 16 * edwardsD ^ 2 * (finv (y * y - 1 * (x * x))) ^ 2 * (finv ((1
      + 1 : F) - Y' * Y' + X' * X'))
      + (8) * (x * y) ^ 6 * (y * y - x * x) ^ 2 * P.Z ^ 16 * edwardsD ^ 2 * (finv (y * y - 1 * (x * x))) ^ 2 * (finv ((1
      + 1 : F) - y * y - 1 * (x * x))) * (finv ((1 + 1 : F) - Y' * Y' + X' * X'))
      + (32) * (x * y) ^ 6 * (y * y - x * x) ^ 4 * P.Z ^ 16 * edwardsD ^ 2 * (finv (y * y - 1 * (x * x))) ^ 2 * (finv ((1
      + 1 : F) - Y' * Y' + X' * X'))
      + (64) * (x * y) ^ 6 * (y * y - x * x) ^ 4 * P.Z ^ 16 * edwardsD ^ 2 * (finv (y * y - 1 * (x * x))) ^ 2 * (finv ((1
      + 1 : F) - y * y - 1 * (x * x))) * (finv ((1 + 1 : F) - Y' * Y' + X' * X'))
      + (-8) * (x * y) ^ 6 * (y * y - x * x) ^ 4 * P.Z ^ 16 * edwardsD ^ 3 * (finv (y * y - 1 * (x * x))) ^ 2 * (finv ((1
      + 1 : F) - Y' * Y' + X' * X'))
      + (-16) * (x * y) ^ 6 * (y * y - x * x) ^ 4 * P.Z ^ 16 * edwardsD ^ 3 * (finv (y * y - 1 * (x * x))) ^ 2 * (finv ((1
      + 1 : F) - y * y - 1 * (x * x))) * (finv ((1 + 1 : F) - Y' * Y' + X' * X'))
      + (8) * (x * y) ^ 6 * (y * y - x * x) ^ 6 * P.Z ^ 16 * edwardsD ^ 3 * (finv (y * y - 1 * (x * x))) ^ 2 * (finv ((1
      + 1 : F) - Y' * Y' + X' * X'))
      + (16) * (x * y) ^ 6 * (y * y - x * x) ^ 6 * P.Z ^ 16 * edwardsD ^ 3 * (finv (y * y - 1 * (x * x))) ^ 2 * (finv ((1
      + 1 : F) - y * y - 1 * (x * x))) * (finv ((1 + 1 : F) - Y' * Y' + X' * X'))
      + (-32) * (x * y) ^ 6 * (y * y
      + x * x) * P.Z ^ 16 * edwardsD * (finv (y * y - 1 * (x * x))) ^ 2 * (finv ((1
      + 1 : F) - y * y - 1 * (x * x))) * (finv ((1 + 1 : F) - Y' * Y' + X' * X'))
      + (16) * (x * y) ^ 6 * (y * y
      + x * x) * P.Z ^ 16 * edwardsD ^ 2 * (finv (y * y - 1 * (x * x))) ^ 2 * (finv ((1
      + 1 : F) - y * y - 1 * (x * x))) * (finv ((1 + 1 : F) - Y' * Y' + X' * X'))
      + (64) * (x * y) ^ 6 * (y * y
      + x * x) * (y * y - x * x) ^ 2 * P.Z ^ 16 * edwardsD * (finv (y * y - 1 * (x * x))) ^ 2 * (finv ((1
      + 1 : F) - y * y - 1 * (x * x))) * (finv ((1 + 1 : F) - Y' * Y' + X' * X'))
      + (-4) * (x * y) ^ 6 * (y * y
      + x * x) * (y * y - x * x) ^ 2 * P.Z ^ 16 * edwardsD ^ 2 * (finv (y * y - 1 * (x * x))) ^ 2 * (finv ((1
      + 1 : F) - y * y - 1 * (x * x))) * (finv ((1 + 1 : F) - Y' * Y' + X' * X'))
      + (-32) * (x * y) ^ 6 * (y * y
      + x * x) * (y * y - x * x) ^ 4 * P.Z ^ 16 * edwardsD ^ 2 * (finv (y * y - 1 * (x * x))) ^ 2 * (finv ((1
      + 1 : F) - y * y - 1 * (x * x))) * (finv ((1 + 1 : F) - Y' * Y' + X' * X'))
      + (8) * (x * y) ^ 6 * (y * y
      + x * x) * (y * y - x * x) ^ 4 * P.Z ^ 16 * edwardsD ^ 3 * (finv (y * y - 1 * (x * x))) ^ 2 * (finv ((1
      + 1 : F) - y * y - 1 * (x * x))) * (finv ((1 + 1 : F) - Y' * Y' + X' * X'))
      + (-8) * (x * y) ^ 6 * (y * y
      + x * x) * (y * y - x * x) ^ 6 * P.Z ^ 16 * edwardsD ^ 3 * (finv (y * y - 1 * (x * x))) ^ 2 * (finv ((1
      + 1 : F) - y * y - 1 * (x * x))) * (finv ((1 + 1 : F) - Y' * Y' + X' * X'))
      + (16) * (x * y) ^ 8 * P.Z ^ 16 * edwardsD ^ 2 * (finv (y * y - 1 * (x * x))) ^ 2 * (finv ((1
      + 1 : F) - Y' * Y' + X' * X'))
      + (32) * (x * y) ^ 8 * P.Z ^ 16 * edwardsD ^ 2 * (finv (y * y - 1 * (x * x))) ^ 2 * (finv ((1
      + 1 : F) - y * y - 1 * (x * x))) * (finv ((1 + 1 : F) - Y' * Y' + X' * X'))
      + (128) * (x * y) ^ 8 * (y * y - x * x) ^ 2 * P.Z ^ 16 * edwardsD ^ 2 * (finv (y * y - 1 * (x * x))) ^ 2 * (finv ((1
      + 1 : F) - Y' * Y' + X' * X'))
      + (256) * (x * y) ^ 8 * (y * y - x * x) ^ 2 * P.Z ^ 16 * edwardsD ^ 2 * (finv (y * y - 1 * (x * x))) ^ 2 * (finv ((1
      + 1 : F) - y * y - 1 * (x * x))) * (finv ((1 + 1 : F) - Y' * Y' + X' * X'))
      + (-48) * (x * y) ^ 8 * (y * y - x * x) ^ 2 * P.Z ^ 16 * edwardsD ^ 3 * (finv (y * y - 1 * (x * x))) ^ 2 * (finv ((1
      + 1 : F) - Y' * Y' + X' * X'))
      + (-96) * (x * y) ^ 8 * (y * y - x * x) ^ 2 * P.Z ^ 16 * edwardsD ^ 3 * (finv (y * y - 1 * (x * x))) ^ 2 * (finv ((1
      + 1 : F) - y * y - 1 * (x * x))) * (finv ((1 + 1 : F) - Y' * Y' + X' * X'))
      + (-16) * (x * y) ^ 8 * (y * y - x * x) ^ 4 * P.Z ^ 16 * edwardsD ^ 3 * (finv (y * y - 1 * (x * x))) ^ 2 * (finv ((1
      + 1 : F) - Y' * Y' + X' * X'))
      + (-32) * (x * y) ^ 8 * (y * y - x * x) ^ 4 * P.Z ^ 16 * edwardsD ^ 3 * (finv (y * y - 1 * (x * x))) ^ 2 * (finv ((1
      + 1 : F) - y * y - 1 * (x * x))) * (finv ((1 + 1 : F) - Y' * Y' + X' * X'))
      + (-2) * (x * y) ^ 8 * (y * y - x * x) ^ 4 * P.Z ^ 16 * edwardsD ^ 4 * (finv (y * y - 1 * (x * x))) ^ 2 * (finv ((1
      + 1 : F) - Y' * Y' + X' * X'))
      + (-4) * (x * y) ^ 8 * (y * y - x * x) ^ 4 * P.Z ^ 16 * edwardsD ^ 4 * (finv (y * y - 1 * (x * x))) ^ 2 * (finv ((1
      + 1 : F) - y * y - 1 * (x * x))) * (finv ((1 + 1 : F) - Y' * Y' + X' * X'))
      + (-16) * (x * y) ^ 8 * (y * y
      + x * x) * P.Z ^ 16 * edwardsD ^ 2 * (finv (y * y - 1 * (x * x))) ^ 2 * (finv ((1
      + 1 : F) - y * y - 1 * (x * x))) * (finv ((1 + 1 : F) - Y' * Y' + X' * X'))
      + (-128) * (x * y) ^ 8 * (y * y
      + x * x) * (y * y - x * x) ^ 2 * P.Z ^ 16 * edwardsD ^ 2 * (finv (y * y - 1 * (x * x))) ^ 2 * (finv ((1
      + 1 : F) - y * y - 1 * (x * x))) * (finv ((1 + 1 : F) - Y' * Y' + X' * X'))
      + (48) * (x * y) ^ 8 * (y * y
      + x * x) * (y * y - x * x) ^ 2 * P.Z ^ 16 * edwardsD ^ 3 * (finv (y * y - 1 * (x * x))) ^ 2 * (finv ((1
      + 1 : F) - y * y - 1 * (x * x))) * (finv ((1 + 1 : F) - Y' * Y' + X' * X'))
      + (16) * (x * y) ^ 8 * (y * y
      + x * x) * (y * y - x * x) ^ 4 * P.Z ^ 16 * edwardsD ^ 3 * (finv (y * y - 1 * (x * x))) ^ 2 * (finv ((1
      + 1 : F) - y * y - 1 * (x * x))) * (finv ((1 + 1 : F) - Y' * Y' + X' * X'))
      + (2) * (x * y) ^ 8 * (y * y
      + x * x) * (y * y - x * x) ^ 4 * P.Z ^ 16 * edwardsD ^ 4 * (finv (y * y - 1 * (x * x))) ^ 2 * (finv ((1
      + 1 : F) - y * y - 1 * (x * x))) * (finv ((1 + 1 : F) - Y' * Y' + X' * X'))
      + (-64) * (x * y) ^ 10 * P.Z ^ 16 * edwardsD ^ 3 * (finv (y * y - 1 * (x * x))) ^ 2 * (finv ((1
      + 1 : F) - Y' * Y' + X' * X'))
      + (-128) * (x * y) ^ 10 * P.Z ^ 16 * edwardsD ^ 3 * (finv (y * y - 1 * (x * x))) ^ 2 * (finv ((1
      + 1 : F) - y * y - 1 * (x * x))) * (finv ((1 + 1 : F) - Y' * Y' + X' * X'))
      + (24) * (x * y) ^ 10 * P.Z ^ 16 * edwardsD ^ 4 * (finv (y * y - 1 * (x * x))) ^ 2 * (finv ((1
      + 1 : F) - Y' * Y' + X' * X'))
      + (48) * (x * y) ^ 10 * P.Z ^ 16 * edwardsD ^ 4 * (finv (y * y - 1 * (x * x))) ^ 2 * (finv ((1
      + 1 : F) - y * y - 1 * (x * x))) * (finv ((1 + 1 : F) - Y' * Y' + X' * X'))
      + (-64) * (x * y) ^ 10 * (y * y - x * x) ^ 2 * P.Z ^ 16 * edwardsD ^ 3 * (finv (y * y - 1 * (x * x))) ^ 2 * (finv ((1
      + 1 : F) - Y' * Y' + X' * X'))
      + (-128) * (x * y) ^ 10 * (y * y - x * x) ^ 2 * P.Z ^ 16 * edwardsD ^ 3 * (finv (y * y - 1 * (x * x))) ^ 2 * (finv ((1
      + 1 : F) - y * y - 1 * (x * x))) * (finv ((1 + 1 : F) - Y' * Y' + X' * X'))
      + (4) * (x * y) ^ 10 * (y * y - x * x) ^ 2 * P.Z ^ 16 * edwardsD ^ 4 * (finv (y * y - 1 * (x * x))) ^ 2 * (finv ((1
      + 1 : F) - Y' * Y' + X' * X'))
      + (8) * (x * y) ^ 10 * (y * y - x * x) ^ 2 * P.Z ^ 16 * edwardsD ^ 4 * (finv (y * y - 1 * (x * x))) ^ 2 * (finv ((1
      + 1 : F) - y * y - 1 * (x * x))) * (finv ((1 + 1 : F) - Y' * Y' + X' * X'))
      + (4) * (x * y) ^ 10 * (y * y - x * x) ^ 4 * P.Z ^ 16 * edwardsD ^ 5 * (finv (y * y - 1 * (x * x))) ^ 2 * (finv ((1
      + 1 : F) - Y' * Y' + X' * X'))
      + (8) * (x * y) ^ 10 * (y * y - x * x) ^ 4 * P.Z ^ 16 * edwardsD ^ 5 * (finv (y * y - 1 * (x * x))) ^ 2 * (finv ((1
      + 1 : F) - y * y - 1 * (x * x))) * (finv ((1 + 1 : F) - Y' * Y' + X' * X'))
      + (64) * (x * y) ^ 10 * (y * y
      + x * x) * P.Z ^ 16 * edwardsD ^ 3 * (finv (y * y - 1 * (x * x))) ^ 2 * (finv ((1
      + 1 : F) - y * y - 1 * (x * x))) * (finv ((1 + 1 : F) - Y' * Y' + X' * X'))
      + (-24) * (x * y) ^ 10 * (y * y
      + x * x) * P.Z ^ 16 * edwardsD ^ 4 * (finv (y * y - 1 * (x * x))) ^ 2 * (finv ((1
      + 1 : F) - y * y - 1 * (x * x))) * (finv ((1 + 1 : F) - Y' * Y' + X' * X'))
      + (64) * (x * y) ^ 10 * (y * y
      + x * x) * (y * y - x * x) ^ 2 * P.Z ^ 16 * edwardsD ^ 3 * (finv (y * y - 1 * (x * x))) ^ 2 * (finv ((1
      + 1 : F) - y * y - 1 * (x * x))) * (finv ((1 + 1 : F) - Y' * Y' + X' * X'))
      + (-4) * (x * y) ^ 10 * (y * y
      + x * x) * (y * y - x * x) ^ 2 * P.Z ^ 16 * edwardsD ^ 4 * (finv (y * y - 1 * (x * x))) ^ 2 * (finv ((1
      + 1 : F) - y * y - 1 * (x * x))) * (finv ((1 + 1 : F) - Y' * Y' + X' * X'))
      + (-4) * (x * y) ^ 10 * (y * y
      + x * x) * (y * y - x * x) ^ 4 * P.Z ^ 16 * edwardsD ^ 5 * (finv (y * y - 1 * (x * x))) ^ 2 * (finv ((1
      + 1 : F) - y * y - 1 * (x * x))) * (finv ((1 + 1 : F) - Y' * Y' + X' * X'))
      + (16) * (x * y) ^ 12 * P.Z ^ 16 * edwardsD ^ 4 * (finv (y * y - 1 * (x * x))) ^ 2 * (finv ((1
      + 1 : F) - Y' * Y' + X' * X'))
      + (32) * (x * y) ^ 12 * P.Z ^ 16 * edwardsD ^ 4 * (finv (y * y - 1 * (x * x))) ^ 2 * (finv ((1
      + 1 : F) - y * y - 1 * (x * x))) * (finv ((1 + 1 : F) - Y' * Y' + X' * X'))
      + (24) * (x * y) ^ 12 * (y * y - x * x) ^ 2 * P.Z ^ 16 * edwardsD ^ 5 * (finv (y * y - 1 * (x * x))) ^ 2 * (finv ((1
      + 1 : F) - Y' * Y' + X' * X'))
      + (48) * (x * y) ^ 12 * (y * y - x * x) ^ 2 * P.Z ^ 16 * edwardsD ^ 5 * (finv (y * y - 1 * (x * x))) ^ 2 * (finv ((1
      + 1 : F) - y * y - 1 * (x * x))) * (finv ((1 + 1 : F) - Y' * Y' + X' * X'))
      + (2) * (x * y) ^ 12 * (y * y - x * x) ^ 4 * P.Z ^ 16 * edwardsD ^ 6 * (finv (y * y - 1 * (x * x))) ^ 2 * (finv ((1
      + 1 : F) - Y' * Y' + X' * X'))
      + (4) * (x * y) ^ 12 * (y * y - x * x) ^ 4 * P.Z ^ 16 * edwardsD ^ 6 * (finv (y * y - 1 * (x * x))) ^ 2 * (finv ((1
      + 1 : F) - y * y - 1 * (x * x))) * (finv ((1 + 1 : F) - Y' * Y' + X' * X'))
      + (-16) * (x * y) ^ 12 * (y * y
      + x * x) * P.Z ^ 16 * edwardsD ^ 4 * (finv (y * y - 1 * (x * x))) ^ 2 * (finv ((1
      + 1 : F) - y * y - 1 * (x * x))) * (finv ((1 + 1 : F) - Y' * Y' + X' * X'))
      + (-24) * (x * y) ^ 12 * (y * y
      + x * x) * (y * y - x * x) ^ 2 * P.Z ^ 16 * edwardsD ^ 5 * (finv (y * y - 1 * (x * x))) ^ 2 * (finv ((1
      + 1 : F) - y * y - 1 * (x * x))) * (finv ((1 + 1 : F) - Y' * Y' + X' * X'))
      + (-2) * (x * y) ^ 12 * (y * y
      + x * x) * (y * y - x * x) ^ 4 * P.Z ^ 16 * edwardsD ^ 6 * (finv (y * y - 1 * (x * x))) ^ 2 * (finv ((1
      + 1 : F) - y * y - 1 * (x * x))) * (finv ((1 + 1 : F) - Y' * Y' + X' * X'))
      + (32) * (x * y) ^ 14 * P.Z ^ 16 * edwardsD ^ 5 * (finv (y * y - 1 * (x * x))) ^ 2 * (finv ((1
      + 1 : F) - Y' * Y' + X' * X'))
      + (64) * (x * y) ^ 14 * P.Z ^ 16 * edwardsD ^ 5 * (finv (y * y - 1 * (x * x))) ^ 2 * (finv ((1
      + 1 : F) - y * y - 1 * (x * x))) * (finv ((1 + 1 : F) - Y' * Y' + X' * X'))
      + (-16) * (x * y) ^ 14 * P.Z ^ 16 * edwardsD ^ 6 * (finv (y * y - 1 * (x * x))) ^ 2 * (finv ((1
      + 1 : F) - Y' * Y' + X' * X'))
      + (-32) * (x * y) ^ 14 * P.Z ^ 16 * edwardsD ^ 6 * (finv (y * y - 1 * (x * x))) ^ 2 * (finv ((1
      + 1 : F) - y * y - 1 * (x * x))) * (finv ((1 + 1 : F) - Y' * Y' + X' * X'))
      + (-4) * (x * y) ^ 14 * (y * y - x * x) ^ 2 * P.Z ^ 16 * edwardsD ^ 6 * (finv (y * y - 1 * (x * x))) ^ 2 * (finv ((1
      + 1 : F) - Y' * Y' + X' * X'))
      + (-8) * (x * y) ^ 14 * (y * y - x * x) ^ 2 * P.Z ^ 16 * edwardsD ^ 6 * (finv (y * y - 1 * (x * x))) ^ 2 * (finv ((1
      + 1 : F) - y * y - 1 * (x * x))) * (finv ((1 + 1 : F) - Y' * Y' + X' * X'))
      + (-32) * (x * y) ^ 14 * (y * y
      + x * x) * P.Z ^ 16 * edwardsD ^ 5 * (finv (y * y - 1 * (x * x))) ^ 2 * (finv ((1
      + 1 : F) - y * y - 1 * (x * x))) * (finv ((1 + 1 : F) - Y' * Y' + X' * X'))
      + (16) * (x * y) ^ 14 * (y * y
      + x * x) * P.Z ^ 16 * edwardsD ^ 6 * (finv (y * y - 1 * (x * x))) ^ 2 * (finv ((1
      + 1 : F) - y * y - 1 * (x * x))) * (finv ((1 + 1 : F) - Y' * Y' + X' * X'))
      + (4) * (x * y) ^ 14 * (y * y
      + x * x) * (y * y - x * x) ^ 2 * P.Z ^ 16 * edwardsD ^ 6 * (finv (y * y - 1 * (x * x))) ^ 2 * (finv ((1
      + 1 : F) - y * y - 1 * (x * x))) * (finv ((1 + 1 : F) - Y' * Y' + X' * X'))
      + (-16) * (x * y) ^ 16 * P.Z ^ 16 * edwardsD ^ 6 * (finv (y * y - 1 * (x * x))) ^ 2 * (finv ((1
      + 1 : F) - Y' * Y' + X' * X'))
      + (-32) * (x * y) ^ 16 * P.Z ^ 16 * edwardsD ^ 6 * (finv (y * y - 1 * (x * x))) ^ 2 * (finv ((1
      + 1 : F) - y * y - 1 * (x * x))) * (finv ((1 + 1 : F) - Y' * Y' + X' * X'))
      + (16) * (x * y) ^ 16 * (y * y
      + x * x) * P.Z ^ 16 * edwardsD ^ 6 * (finv (y * y - 1 * (x * x))) ^ 2 * (finv ((1
      + 1 : F) - y * y - 1 * (x * x))) * (finv ((1 + 1 : F) - Y' * Y' + X' * X'))
      + (4) * (x * y) ^ 18 * P.Z ^ 16 * edwardsD ^ 8 * (finv (y * y - 1 * (x * x))) ^ 2 * (finv ((1
      + 1 : F) - Y' * Y' + X' * X'))
      + (8) * (x * y) ^ 18 * P.Z ^ 16 * edwardsD ^ 8 * (finv (y * y - 1 * (x * x))) ^ 2 * (finv ((1
      + 1 : F) - y * y - 1 * (x * x))) * (finv ((1 + 1 : F) - Y' * Y' + X' * X'))
      + (-4) * (x * y) ^ 18 * (y * y
      + x * x) * P.Z ^ 16 * edwardsD ^ 8 * (finv (y * y - 1 * (x * x))) ^ 2 * (finv ((1
      + 1 : F) - y * y - 1 * (x * x))) * (finv ((1 + 1 : F) - Y' * Y' + X' * X'))) * hdy
      + ((-1) * P.Z ^ 16 * X' * (finv ((1 + 1 : F) - Y' * Y' + X' * X'))
      + (-1) * (y * y - x * x) ^ 2 * P.Z ^ 16 * X' * (finv ((1 + 1 : F) - Y' * Y' + X' * X'))
      + (-2) * (x * y) * P.Z ^ 16 * (finv (y * y - 1 * (x * x))) * (finv ((1
      + 1 : F) - Y' * Y' + X' * X'))
      + (-2) * (x * y) * (y * y - x * x) ^ 2 * P.Z ^ 16 * (finv (y * y - 1 * (x * x))) * (finv ((1
      + 1 : F) - Y' * Y' + X' * X')) + (4) * (x * y) ^ 2 * P.Z ^ 16 * X' * (finv ((1
      + 1 : F) - Y' * Y' + X' * X'))
      + (-2) * (x * y) ^ 2 * (y * y - x * x) ^ 2 * P.Z ^ 16 * edwardsD * X' * (finv ((1
      + 1 : F) - Y' * Y' + X' * X'))
      + (-4) * (x * y) ^ 2 * (y * y - x * x) ^ 4 * P.Z ^ 16 * edwardsD * X' * (finv ((1
      + 1 : F) - Y' * Y' + X' * X'))
      + (8) * (x * y) ^ 3 * P.Z ^ 16 * (finv (y * y - 1 * (x * x))) * (finv ((1
      + 1 : F) - Y' * Y' + X' * X'))
      + (-4) * (x * y) ^ 3 * (y * y - x * x) ^ 2 * P.Z ^ 16 * edwardsD * (finv (y * y - 1 * (x * x))) * (finv ((1
      + 1 : F) - Y' * Y' + X' * X'))
      + (-8) * (x * y) ^ 3 * (y * y - x * x) ^ 4 * P.Z ^ 16 * edwardsD * (finv (y * y - 1 * (x * x))) * (finv ((1
      + 1 : F) - Y' * Y' + X' * X'))
      + (-8) * (x * y) ^ 4 * P.Z ^ 16 * edwardsD * X' * (finv ((1 + 1 : F) - Y' * Y'
      + X' * X')) + (4) * (x * y) ^ 4 * P.Z ^ 16 * edwardsD ^ 2 * X' * (finv ((1
      + 1 : F) - Y' * Y' + X' * X'))
      + (16) * (x * y) ^ 4 * (y * y - x * x) ^ 2 * P.Z ^ 16 * edwardsD * X' * (finv ((1
      + 1 : F) - Y' * Y' + X' * X'))
      + (x * y) ^ 4 * (y * y - x * x) ^ 2 * P.Z ^ 16 * edwardsD ^ 2 * X' * (finv ((1
      + 1 : F) - Y' * Y' + X' * X'))
      + (8) * (x * y) ^ 4 * (y * y - x * x) ^ 4 * P.Z ^ 16 * edwardsD ^ 2 * X' * (finv ((1
      + 1 : F) - Y' * Y' + X' * X'))
      + (-16) * (x * y) ^ 5 * P.Z ^ 16 * edwardsD * (finv (y * y - 1 * (x * x))) * (finv ((1
      + 1 : F) - Y' * Y' + X' * X'))
      + (8) * (x * y) ^ 5 * P.Z ^ 16 * edwardsD ^ 2 * (finv (y * y - 1 * (x * x))) * (finv ((1
      + 1 : F) - Y' * Y' + X' * X'))
      + (32) * (x * y) ^ 5 * (y * y - x * x) ^ 2 * P.Z ^ 16 * edwardsD * (finv (y * y - 1 * (x * x))) * (finv ((1
      + 1 : F) - Y' * Y' + X' * X'))
      + (2) * (x * y) ^ 5 * (y * y - x * x) ^ 2 * P.Z ^ 16 * edwardsD ^ 2 * (finv (y * y - 1 * (x * x))) * (finv ((1
      + 1 : F) - Y' * Y' + X' * X'))
      + (16) * (x * y) ^ 5 * (y * y - x * x) ^ 4 * P.Z ^ 16 * edwardsD ^ 2 * (finv (y * y - 1 * (x * x))) * (finv ((1
      + 1 : F) - Y' * Y' + X' * X'))
      + (-4) * (x * y) ^ 6 * P.Z ^ 16 * edwardsD ^ 2 * X' * (finv ((1 + 1 : F) - Y' * Y'
      + X' * X'))
      + (-32) * (x * y) ^ 6 * (y * y - x * x) ^ 2 * P.Z ^ 16 * edwardsD ^ 2 * X' * (finv ((1
      + 1 : F) - Y' * Y' + X' * X'))
      + (4) * (x * y) ^ 6 * (y * y - x * x) ^ 2 * P.Z ^ 16 * edwardsD ^ 3 * X' * (finv ((1
      + 1 : F) - Y' * Y' + X' * X'))
      + (-4) * (x * y) ^ 6 * (y * y - x * x) ^ 4 * P.Z ^ 16 * edwardsD ^ 3 * X' * (finv ((1
      + 1 : F) - Y' * Y' + X' * X'))
      + (-8) * (x * y) ^ 7 * P.Z ^ 16 * edwardsD ^ 2 * (finv (y * y - 1 * (x * x))) * (finv ((1
      + 1 : F) - Y' * Y' + X' * X'))
      + (-64) * (x * y) ^ 7 * (y * y - x * x) ^ 2 * P.Z ^ 16 * edwardsD ^ 2 * (finv (y * y - 1 * (x * x))) * (finv ((1
      + 1 : F) - Y' * Y' + X' * X'))
      + (8) * (x * y) ^ 7 * (y * y - x * x) ^ 2 * P.Z ^ 16 * edwardsD ^ 3 * (finv (y * y - 1 * (x * x))) * (finv ((1
      + 1 : F) - Y' * Y' + X' * X'))
      + (-8) * (x * y) ^ 7 * (y * y - x * x) ^ 4 * P.Z ^ 16 * edwardsD ^ 3 * (finv (y * y - 1 * (x * x))) * (finv ((1
      + 1 : F) - Y' * Y' + X' * X'))
      + (16) * (x * y) ^ 8 * P.Z ^ 16 * edwardsD ^ 3 * X' * (finv ((1 + 1 : F) - Y' * Y'
      + X' * X')) + (-6) * (x * y) ^ 8 * P.Z ^ 16 * edwardsD ^ 4 * X' * (finv ((1
      + 1 : F) - Y' * Y' + X' * X'))
      + (16) * (x * y) ^ 8 * (y * y - x * x) ^ 2 * P.Z ^ 16 * edwardsD ^ 3 * X' * (finv ((1
      + 1 : F) - Y' * Y' + X' * X'))
      + (x * y) ^ 8 * (y * y - x * x) ^ 2 * P.Z ^ 16 * edwardsD ^ 4 * X' * (finv ((1
      + 1 : F) - Y' * Y' + X' * X'))
      + (32) * (x * y) ^ 9 * P.Z ^ 16 * edwardsD ^ 3 * (finv (y * y - 1 * (x * x))) * (finv ((1
      + 1 : F) - Y' * Y' + X' * X'))
      + (-12) * (x * y) ^ 9 * P.Z ^ 16 * edwardsD ^ 4 * (finv (y * y - 1 * (x * x))) * (finv ((1
      + 1 : F) - Y' * Y' + X' * X'))
      + (32) * (x * y) ^ 9 * (y * y - x * x) ^ 2 * P.Z ^ 16 * edwardsD ^ 3 * (finv (y * y - 1 * (x * x))) * (finv ((1
      + 1 : F) - Y' * Y' + X' * X'))
      + (2) * (x * y) ^ 9 * (y * y - x * x) ^ 2 * P.Z ^ 16 * edwardsD ^ 4 * (finv (y * y - 1 * (x * x))) * (finv ((1
      + 1 : F) - Y' * Y' + X' * X'))
      + (-4) * (x * y) ^ 10 * P.Z ^ 16 * edwardsD ^ 4 * X' * (finv ((1 + 1 : F) - Y' * Y'
      + X' * X'))
      + (-2) * (x * y) ^ 10 * (y * y - x * x) ^ 2 * P.Z ^ 16 * edwardsD ^ 5 * X' * (finv ((1
      + 1 : F) - Y' * Y' + X' * X'))
      + (-8) * (x * y) ^ 11 * P.Z ^ 16 * edwardsD ^ 4 * (finv (y * y - 1 * (x * x))) * (finv ((1
      + 1 : F) - Y' * Y' + X' * X'))
      + (-4) * (x * y) ^ 11 * (y * y - x * x) ^ 2 * P.Z ^ 16 * edwardsD ^ 5 * (finv (y * y - 1 * (x * x))) * (finv ((1
      + 1 : F) - Y' * Y' + X' * X'))
      + (-8) * (x * y) ^ 12 * P.Z ^ 16 * edwardsD ^ 5 * X' * (finv ((1 + 1 : F) - Y' * Y'
      + X' * X')) + (4) * (x * y) ^ 12 * P.Z ^ 16 * edwardsD ^ 6 * X' * (finv ((1
      + 1 : F) - Y' * Y' + X' * X'))
      + (-1) * (x * y) ^ 12 * (y * y - x * x) ^ 2 * P.Z ^ 16 * edwardsD ^ 6 * X' * (finv ((1
      + 1 : F) - Y' * Y' + X' * X'))
      + (-16) * (x * y) ^ 13 * P.Z ^ 16 * edwardsD ^ 5 * (finv (y * y - 1 * (x * x))) * (finv ((1
      + 1 : F) - Y' * Y' + X' * X'))
      + (8) * (x * y) ^ 13 * P.Z ^ 16 * edwardsD ^ 6 * (finv (y * y - 1 * (x * x))) * (finv ((1
      + 1 : F) - Y' * Y' + X' * X'))
      + (-2) * (x * y) ^ 13 * (y * y - x * x) ^ 2 * P.Z ^ 16 * edwardsD ^ 6 * (finv (y * y - 1 * (x * x))) * (finv ((1
      + 1 : F) - Y' * Y' + X' * X'))
      + (4) * (x * y) ^ 14 * P.Z ^ 16 * edwardsD ^ 6 * X' * (finv ((1 + 1 : F) - Y' * Y'
      + X' * X'))
      + (8) * (x * y) ^ 15 * P.Z ^ 16 * edwardsD ^ 6 * (finv (y * y - 1 * (x * x))) * (finv ((1
      + 1 : F) - Y' * Y' + X' * X'))
      + (-1) * (x * y) ^ 16 * P.Z ^ 16 * edwardsD ^ 8 * X' * (finv ((1 + 1 : F) - Y' * Y'
      + X' * X'))
      + (-2) * (x * y) ^ 17 * P.Z ^ 16 * edwardsD ^ 8 * (finv (y * y - 1 * (x * x))) * (finv ((1
      + 1 : F) - Y' * Y' + X' * X'))) * hX' + (P.Z ^ 16 * Y' * (finv ((1 + 1 : F) - Y' * Y'
      + X' * X')) + (y * y - x * x) ^ 2 * P.Z ^ 16 * Y' * (finv ((1 + 1 : F) - Y' * Y'
      + X' * X')) + (y * y + x * x) * P.Z ^ 16 * (finv ((1
      + 1 : F) - y * y - 1 * (x * x))) * (finv ((1 + 1 : F) - Y' * Y' + X' * X')) + (y * y
      + x * x) * (y * y - x * x) ^ 2 * P.Z ^ 16 * (finv ((1
      + 1 : F) - y * y - 1 * (x * x))) * (finv ((1 + 1 : F) - Y' * Y' + X' * X'))
      + (-4) * (x * y) ^ 2 * P.Z ^ 16 * Y' * (finv ((1 + 1 : F) - Y' * Y' + X' * X'))
      + (2) * (x * y) ^ 2 * (y * y - x * x) ^ 2 * P.Z ^ 16 * edwardsD * Y' * (finv ((1
      + 1 : F) - Y' * Y' + X' * X'))
      + (4) * (x * y) ^ 2 * (y * y - x * x) ^ 4 * P.Z ^ 16 * edwardsD * Y' * (finv ((1
      + 1 : F) - Y' * Y' + X' * X')) + (-4) * (x * y) ^ 2 * (y * y
      + x * x) * P.Z ^ 16 * (finv ((1 + 1 : F) - y * y - 1 * (x * x))) * (finv ((1
      + 1 : F) - Y' * Y' + X' * X')) + (2) * (x * y) ^ 2 * (y * y
      + x * x) * (y * y - x * x) ^ 2 * P.Z ^ 16 * edwardsD * (finv ((1
      + 1 : F) - y * y - 1 * (x * x))) * (finv ((1 + 1 : F) - Y' * Y' + X' * X'))
      + (4) * (x * y) ^ 2 * (y * y
      + x * x) * (y * y - x * x) ^ 4 * P.Z ^ 16 * edwardsD * (finv ((1
      + 1 : F) - y * y - 1 * (x * x))) * (finv ((1 + 1 : F) - Y' * Y' + X' * X'))
      + (8) * (x * y) ^ 4 * P.Z ^ 16 * edwardsD * Y' * (finv ((1 + 1 : F) - Y' * Y'
      + X' * X')) + (-4) * (x * y) ^ 4 * P.Z ^ 16 * edwardsD ^ 2 * Y' * (finv ((1
      + 1 : F) - Y' * Y' + X' * X'))
      + (-16) * (x * y) ^ 4 * (y * y - x * x) ^ 2 * P.Z ^ 16 * edwardsD * Y' * (finv ((1
      + 1 : F) - Y' * Y' + X' * X'))
      + (-1) * (x * y) ^ 4 * (y * y - x * x) ^ 2 * P.Z ^ 16 * edwardsD ^ 2 * Y' * (finv ((1
      + 1 : F) - Y' * Y' + X' * X'))
      + (-8) * (x * y) ^ 4 * (y * y - x * x) ^ 4 * P.Z ^ 16 * edwardsD ^ 2 * Y' * (finv ((1
      + 1 : F) - Y' * Y' + X' * X')) + (8) * (x * y) ^ 4 * (y * y
      + x * x) * P.Z ^ 16 * edwardsD * (finv ((1 + 1 : F) - y * y - 1 * (x * x))) * (finv ((1
      + 1 : F) - Y' * Y' + X' * X')) + (-4) * (x * y) ^ 4 * (y * y
      + x * x) * P.Z ^ 16 * edwardsD ^ 2 * (finv ((1
      + 1 : F) - y * y - 1 * (x * x))) * (finv ((1 + 1 : F) - Y' * Y' + X' * X'))
      + (-16) * (x * y) ^ 4 * (y * y
      + x * x) * (y * y - x * x) ^ 2 * P.Z ^ 16 * edwardsD * (finv ((1
      + 1 : F) - y * y - 1 * (x * x))) * (finv ((1 + 1 : F) - Y' * Y' + X' * X'))
      + (-1) * (x * y) ^ 4 * (y * y
      + x * x) * (y * y - x * x) ^ 2 * P.Z ^ 16 * edwardsD ^ 2 * (finv ((1
      + 1 : F) - y * y - 1 * (x * x))) * (finv ((1 + 1 : F) - Y' * Y' + X' * X'))
      + (-8) * (x * y) ^ 4 * (y * y
      + x * x) * (y * y - x * x) ^ 4 * P.Z ^ 16 * edwardsD ^ 2 * (finv ((1
      + 1 : F) - y * y - 1 * (x * x))) * (finv ((1 + 1 : F) - Y' * Y' + X' * X'))
      + (4) * (x * y) ^ 6 * P.Z ^ 16 * edwardsD ^ 2 * Y' * (finv ((1 + 1 : F) - Y' * Y'
      + X' * X'))
      + (32) * (x * y) ^ 6 * (y * y - x * x) ^ 2 * P.Z ^ 16 * edwardsD ^ 2 * Y' * (finv ((1
      + 1 : F) - Y' * Y' + X' * X'))
      + (-4) * (x * y) ^ 6 * (y * y - x * x) ^ 2 * P.Z ^ 16 * edwardsD ^ 3 * Y' * (finv ((1
      + 1 : F) - Y' * Y' + X' * X'))
      + (4) * (x * y) ^ 6 * (y * y - x * x) ^ 4 * P.Z ^ 16 * edwardsD ^ 3 * Y' * (finv ((1
      + 1 : F) - Y' * Y' + X' * X')) + (4) * (x * y) ^ 6 * (y * y
      + x * x) * P.Z ^ 16 * edwardsD ^ 2 * (finv ((1
      + 1 : F) - y * y - 1 * (x * x))) * (finv ((1 + 1 : F) - Y' * Y' + X' * X'))
      + (32) * (x * y) ^ 6 * (y * y
      + x * x) * (y * y - x * x) ^ 2 * P.Z ^ 16 * edwardsD ^ 2 * (finv ((1
      + 1 : F) - y * y - 1 * (x * x))) * (finv ((1 + 1 : F) - Y' * Y' + X' * X'))
      + (-4) * (x * y) ^ 6 * (y * y
      + x * x) * (y * y - x * x) ^ 2 * P.Z ^ 16 * edwardsD ^ 3 * (finv ((1
      + 1 : F) - y * y - 1 * (x * x))) * (finv ((1 + 1 : F) - Y' * Y' + X' * X'))
      + (4) * (x * y) ^ 6 * (y * y
      + x * x) * (y * y - x * x) ^ 4 * P.Z ^ 16 * edwardsD ^ 3 * (finv ((1
      + 1 : F) - y * y - 1 * (x * x))) * (finv ((1 + 1 : F) - Y' * Y' + X' * X'))
      + (-16) * (x * y) ^ 8 * P.Z ^ 16 * edwardsD ^ 3 * Y' * (finv ((1 + 1 : F) - Y' * Y'
      + X' * X')) + (6) * (x * y) ^ 8 * P.Z ^ 16 * edwardsD ^ 4 * Y' * (finv ((1
      + 1 : F) - Y' * Y' + X' * X'))
      + (-16) * (x * y) ^ 8 * (y * y - x * x) ^ 2 * P.Z ^ 16 * edwardsD ^ 3 * Y' * (finv ((1
      + 1 : F) - Y' * Y' + X' * X'))
      + (-1) * (x * y) ^ 8 * (y * y - x * x) ^ 2 * P.Z ^ 16 * edwardsD ^ 4 * Y' * (finv ((1
      + 1 : F) - Y' * Y' + X' * X')) + (-16) * (x * y) ^ 8 * (y * y
      + x * x) * P.Z ^ 16 * edwardsD ^ 3 * (finv ((1
      + 1 : F) - y * y - 1 * (x * x))) * (finv ((1 + 1 : F) - Y' * Y' + X' * X'))
      + (6) * (x * y) ^ 8 * (y * y + x * x) * P.Z ^ 16 * edwardsD ^ 4 * (finv ((1
      + 1 : F) - y * y - 1 * (x * x))) * (finv ((1 + 1 : F) - Y' * Y' + X' * X'))
      + (-16) * (x * y) ^ 8 * (y * y
      + x * x) * (y * y - x * x) ^ 2 * P.Z ^ 16 * edwardsD ^ 3 * (finv ((1
      + 1 : F) - y * y - 1 * (x * x))) * (finv ((1 + 1 : F) - Y' * Y' + X' * X'))
      + (-1) * (x * y) ^ 8 * (y * y
      + x * x) * (y * y - x * x) ^ 2 * P.Z ^ 16 * edwardsD ^ 4 * (finv ((1
      + 1 : F) - y * y - 1 * (x * x))) * (finv ((1 + 1 : F) - Y' * Y' + X' * X'))
      + (4) * (x * y) ^ 10 * P.Z ^ 16 * edwardsD ^ 4 * Y' * (finv ((1 + 1 : F) - Y' * Y'
      + X' * X'))
      + (2) * (x * y) ^ 10 * (y * y - x * x) ^ 2 * P.Z ^ 16 * edwardsD ^ 5 * Y' * (finv ((1
      + 1 : F) - Y' * Y' + X' * X')) + (4) * (x * y) ^ 10 * (y * y
      + x * x) * P.Z ^ 16 * edwardsD ^ 4 * (finv ((1
      + 1 : F) - y * y - 1 * (x * x))) * (finv ((1 + 1 : F) - Y' * Y' + X' * X'))
      + (2) * (x * y) ^ 10 * (y * y
      + x * x) * (y * y - x * x) ^ 2 * P.Z ^ 16 * edwardsD ^ 5 * (finv ((1
      + 1 : F) - y * y - 1 * (x * x))) * (finv ((1 + 1 : F) - Y' * Y' + X' * X'))
      + (8) * (x * y) ^ 12 * P.Z ^ 16 * edwardsD ^ 5 * Y' * (finv ((1 + 1 : F) - Y' * Y'
      + X' * X')) + (-4) * (x * y) ^ 12 * P.Z ^ 16 * edwardsD ^ 6 * Y' * (finv ((1
      + 1 : F) - Y' * Y' + X' * X'))
      + (x * y) ^ 12 * (y * y - x * x) ^ 2 * P.Z ^ 16 * edwardsD ^ 6 * Y' * (finv ((1
      + 1 : F) - Y' * Y' + X' * X')) + (8) * (x * y) ^ 12 * (y * y
      + x * x) * P.Z ^ 16 * edwardsD ^ 5 * (finv ((1
      + 1 : F) - y * y - 1 * (x * x))) * (finv ((1 + 1 : F) - Y' * Y' + X' * X'))
      + (-4) * (x * y) ^ 12 * (y * y + x * x) * P.Z ^ 16 * edwardsD ^ 6 * (finv ((1
      + 1 : F) - y * y - 1 * (x * x))) * (finv ((1 + 1 : F) - Y' * Y' + X' * X'))
      + (x * y) ^ 12 * (y * y
      + x * x) * (y * y - x * x) ^ 2 * P.Z ^ 16 * edwardsD ^ 6 * (finv ((1
      + 1 : F) - y * y - 1 * (x * x))) * (finv ((1 + 1 : F) - Y' * Y' + X' * X'))
      + (-4) * (x * y) ^ 14 * P.Z ^ 16 * edwardsD ^ 6 * Y' * (finv ((1 + 1 : F) - Y' * Y'
      + X' * X')) + (-4) * (x * y) ^ 14 * (y * y
      + x * x) * P.Z ^ 16 * edwardsD ^ 6 * (finv ((1
      + 1 : F) - y * y - 1 * (x * x))) * (finv ((1 + 1 : F) - Y' * Y' + X' * X'))
      + (x * y) ^ 16 * P.Z ^ 16 * edwardsD ^ 8 * Y' * (finv ((1 + 1 : F) - Y' * Y' + X' * X'))
      + (x * y) ^ 16 * (y * y + x * x) * P.Z ^ 16 * edwardsD ^ 8 * (finv ((1
      + 1 : F) - y * y - 1 * (x * x))) * (finv ((1 + 1 : F) - Y' * Y' + X' * X'))) * hY'
      + ((y * y - x * x) ^ 2 * P.Z ^ 16 + (-4) * (x * y) ^ 2 * P.Z ^ 16
      + (2) * (x * y) ^ 2 * (y * y - x * x) ^ 2 * P.Z ^ 16 * edwardsD
      + (4) * (x * y) ^ 2 * (y * y - x * x) ^ 4 * P.Z ^ 16 * edwardsD
      + (8) * (x * y) ^ 4 * P.Z ^ 16 * edwardsD
      + (-16) * (x * y) ^ 4 * (y * y - x * x) ^ 2 * P.Z ^ 16 * edwardsD
      + (-1) * (x * y) ^ 4 * (y * y - x * x) ^ 2 * P.Z ^ 16 * edwardsD ^ 2
      + (8) * (x * y) ^ 4 * (y * y - x * x) ^ 4 * P.Z ^ 16 * edwardsD ^ 2
      + (4) * (x * y) ^ 6 * P.Z ^ 16 * edwardsD ^ 2
      + (32) * (x * y) ^ 6 * (y * y - x * x) ^ 2 * P.Z ^ 16 * edwardsD ^ 2
      + (-4) * (x * y) ^ 6 * (y * y - x * x) ^ 2 * P.Z ^ 16 * edwardsD ^ 3
      + (4) * (x * y) ^ 6 * (y * y - x * x) ^ 4 * P.Z ^ 16 * edwardsD ^ 3
      + (-16) * (x * y) ^ 8 * P.Z ^ 16 * edwardsD ^ 3
      + (-16) * (x * y) ^ 8 * (y * y - x * x) ^ 2 * P.Z ^ 16 * edwardsD ^ 3
      + (-1) * (x * y) ^ 8 * (y * y - x * x) ^ 2 * P.Z ^ 16 * edwardsD ^ 4
      + (4) * (x * y) ^ 10 * P.Z ^ 16 * edwardsD ^ 4
      + (2) * (x * y) ^ 10 * (y * y - x * x) ^ 2 * P.Z ^ 16 * edwardsD ^ 5
      + (8) * (x * y) ^ 12 * P.Z ^ 16 * edwardsD ^ 5
      + (x * y) ^ 12 * (y * y - x * x) ^ 2 * P.Z ^ 16 * edwardsD ^ 6
      + (-4) * (x * y) ^ 14 * P.Z ^ 16 * edwardsD ^ 6) * hddy

/-- Witness for `claim_C4` at the source's historical base point:
every inversion hypothesis is discharged by kernel evaluation. -/
theorem claim_C4_witness :
    ctEq (to_untwisted (to_twisted old_bp)) (double (double old_bp)) = true :=
  claim_C4 old_bp c4x c4y c4X c4Y (by decide) (by decide) (by decide) rfl rfl
    (by decide) (by decide) rfl rfl (by decide) (by decide)

end Ed448
